import Mathlib

/-!
Verification of the pygui GUI-builder core against its specification.

The development shallowly embeds the Python sources:
  * `src/core/code_generator.py`  (`CodeGenerator`)
  * `src/core/code_parser.py`     (`CodeParser`)
  * `src/ui/design_canvas.py`     (undo/redo history and group operations)
  * `src/models/widget_types.py`  (`WidgetData`, `WidgetProperty`, `WidgetGroup`)

Python strings are embedded as `List Char` (`Str`); Python `str` methods
(`find`, `replace`, `strip`, `split`, `startswith`, `in`, slicing, `int()`)
are reimplemented with their Python semantics below.  Python `dict`s keyed
by widget id are embedded as insertion-ordered association lists.  Python
exceptions are embedded with `Option`/`Except`: a `try`/`except` block
becomes a `match` on the embedded result.
-/

set_option maxRecDepth 20000

namespace PyGui

/-- Python strings, embedded as lists of characters. -/
abbrev Str := List Char

/-- Coerce a Lean string literal into the embedding. -/
def str (s : String) : Str := s.data

/-- Python `s.startswith(p)`. -/
def pyStarts : Str → Str → Bool
  | _, [] => true
  | [], _ :: _ => false
  | c :: s, d :: p => c = d && pyStarts s p

/-- Python `p in s` (substring containment). -/
def pyIn (p : Str) : Str → Bool
  | [] => List.isEmpty p
  | c :: t => pyStarts (c :: t) p || pyIn p t

/-- Helper for `pyFind`: search for `p` starting at offset `i`. -/
def pyFindAux (p : Str) : Str → Nat → Int
  | [], _ => -1
  | c :: t, i => if pyStarts (c :: t) p then (i : Int) else pyFindAux p t (i + 1)

/-- Python `s.find(p)`: first index of substring `p`, or `-1`.
(For the nonempty patterns used by the code; `''` is never searched for.) -/
def pyFind (s p : Str) : Int := pyFindAux p s 0

/-- Python `s.find(p, start)`: first index `≥ start`, or `-1`. -/
def pyFindFrom (s p : Str) (start : Nat) : Int :=
  match pyFindAux p (s.drop start) 0 with
  | -1 => -1
  | i => i + (start : Int)

/-- Python slicing `s[a:b]` for `0 ≤ a ≤ b`. -/
def pySlice (s : Str) (a b : Nat) : Str := (s.drop a).take (b - a)

/-- Python `s[a:]`. -/
def pySliceFrom (s : Str) (a : Nat) : Str := s.drop a

/-- Python `s[i]` for `i ≥ 0`; `none` models `IndexError`. -/
def pyAt (s : Str) (i : Nat) : Option Char := (s.drop i).head?

/-- Python `s.lstrip()` (ASCII whitespace fragment). -/
def stripLeft : Str → Str
  | [] => []
  | c :: t => if c.isWhitespace then stripLeft t else c :: t

/-- Python `s.strip()` (ASCII whitespace fragment). -/
def pyStrip (s : Str) : Str := ((stripLeft ((stripLeft s).reverse)).reverse)

/-- Python `s.split(sep)` for a single-character separator (keeps empty parts). -/
def pySplit (sep : Char) : Str → List Str
  | [] => [[]]
  | c :: t =>
      let r := pySplit sep t
      if c = sep then [] :: r
      else match r with
           | [] => [[c]]
           | h :: rest => (c :: h) :: rest

/-- Python `sep.join(parts)`. -/
def pyJoin (sep : Str) : List Str → Str
  | [] => []
  | [p] => p
  | p :: rest => p ++ sep ++ pyJoin sep rest

/-- Fuel-indexed body of `pyReplace` (structural recursion on the fuel so
that the kernel can evaluate it; the fuel is always `≥ s.length`). -/
def pyReplaceAux (old new : Str) : Str → Nat → Str
  | s, 0 => s
  | [], _ + 1 => []
  | c :: t, fuel + 1 =>
      if pyStarts (c :: t) old && !old.isEmpty then
        new ++ pyReplaceAux old new ((c :: t).drop old.length) fuel
      else
        c :: pyReplaceAux old new t fuel

/-- Python `s.replace(old, new)`: replace every non-overlapping occurrence,
scanning left to right.  (`old` is nonempty at every call site.) -/
def pyReplace (old new : Str) (s : Str) : Str :=
  pyReplaceAux old new s s.length

/-- All-decimal-digit check, used by the `int()` embedding. -/
def allDigits : Str → Bool
  | [] => true
  | c :: t => c.isDigit && allDigits t

/-- Decimal value of a digit string. -/
def digitsVal : Str → Nat → Nat
  | [], acc => acc
  | c :: t, acc => digitsVal t (acc * 10 + (c.toNat - 48))

/-- Python `int(s)`: optional whitespace, optional sign, nonempty digit run.
`none` models `ValueError`. -/
def pyInt (s : Str) : Option Int :=
  let t := pyStrip s
  match t with
  | '-' :: r => if r ≠ [] ∧ allDigits r then some (-(digitsVal r 0 : Int)) else none
  | '+' :: r => if r ≠ [] ∧ allDigits r then some ((digitsVal r 0 : Int)) else none
  | r => if r ≠ [] ∧ allDigits r then some ((digitsVal r 0 : Int)) else none

/-- Whether Python `float(s)` succeeds, for strings over the alphabet
digits/`.`/`-` produced by the parser's numeric scanner: optional leading
sign, at most one `.`, at least one digit, no interior sign. -/
def pyFloatOk (s : Str) : Bool :=
  let body := match s with
              | '-' :: r => r
              | r => r
  let parts := pySplit '.' body
  decide (parts.length ≤ 2) &&
    parts.all allDigits &&
    !(pyJoin [] parts).isEmpty &&
    !(pyIn ['-'] body)

/-- Decimal rendering of an integer (Python `str`/f-string interpolation). -/
def intStr (n : Int) : Str := (toString n).data

end PyGui

namespace PyGui

/-! ### `src/models/widget_types.py` -/

/-- `WidgetType` enumeration. -/
inductive WidgetType where
  | button | label | entry | checkbox | combobox | slider | progressbar
  deriving DecidableEq, Repr

/-- The `.value` string of each `WidgetType` member. -/
def WidgetType.value : WidgetType → Str
  | .button => str "Button"
  | .label => str "Label"
  | .entry => str "Entry"
  | .checkbox => str "Checkbox"
  | .combobox => str "Combobox"
  | .slider => str "Slider"
  | .progressbar => str "Progressbar"

/-- Python values that appear as widget-property values.
Exact `float` values never flow into any property the claims touch; the
parser's `float(...)` branch is kept symbolic as the literal text. -/
inductive PValue where
  | vStr (s : Str)
  | vInt (n : Int)
  | vBool (b : Bool)
  | vList (l : List Str)
  | vFloatLit (s : Str)
  | vNone
  deriving DecidableEq, Repr

/-- `WidgetProperty` dataclass (`name`, `value`, `type`, `options`). -/
structure WidgetProperty where
  name : Str
  value : PValue
  ptype : Str
  options : Option (List Str) := none
  deriving DecidableEq, Repr

/-- `WidgetData` dataclass. -/
structure WidgetData where
  id : Str
  type : WidgetType
  x : Int
  y : Int
  width : Int
  height : Int
  properties : List (Str × WidgetProperty)
  group_id : Option Str := none
  layer : Int := 0
  deriving DecidableEq, Repr

/-- The dictionary produced by `WidgetData.to_dict` (all keys, including
`group_id` and `layer`; the enum is stored via its `.value`/constructor
round-trip, which is the identity bijection on snapshot data). -/
structure WidgetDict where
  id : Str
  type : WidgetType
  x : Int
  y : Int
  width : Int
  height : Int
  group_id : Option Str
  layer : Int
  properties : List (Str × WidgetProperty)
  deriving DecidableEq, Repr

/-- `WidgetData.to_dict`. -/
def WidgetData.toDict (w : WidgetData) : WidgetDict :=
  { id := w.id, type := w.type, x := w.x, y := w.y,
    width := w.width, height := w.height,
    group_id := w.group_id, layer := w.layer,
    properties := w.properties }

/-- `WidgetGroup` dataclass. -/
structure WidgetGroup where
  id : Str
  name : Str
  widget_ids : List Str
  x : Int
  y : Int
  width : Int
  height : Int
  layer : Int := 0
  visible : Bool := true
  locked : Bool := false
  deriving DecidableEq, Repr

end PyGui

namespace PyGui

/-! ### Insertion-ordered dictionaries (Python `dict` keyed by widget id) -/

/-- Lookup in an insertion-ordered association list (`d[k]` / `d.get(k)`). -/
def aGet {α : Type} (m : List (Str × α)) (k : Str) : Option α :=
  match m with
  | [] => none
  | (k', v) :: t => if k' = k then some v else aGet t k

/-- `d[k] = v`: overwrite in place if present, else append (Python dict
insertion-order semantics). -/
def aSet {α : Type} (m : List (Str × α)) (k : Str) (v : α) :
    List (Str × α) :=
  match m with
  | [] => [(k, v)]
  | (k', v') :: t => if k' = k then (k, v) :: t else (k', v') :: aSet t k v

/-- `k in d`. -/
def aMem {α : Type} (m : List (Str × α)) (k : Str) : Bool := (aGet m k).isSome

end PyGui

namespace PyGui

/-! ### `CodeGenerator.clean_widget_id` (src/core/code_generator.py lines 13-23) -/

/-- `clean_id[0].isalpha() or clean_id[0] == '_'` on a nonempty string. -/
def headAlphaOrUnderscore : Str → Bool
  | [] => false
  | c :: _ => c.isAlpha || c = '_'

/-- `clean_widget_id`: replace `-` with `_`; if the result is nonempty and
does not start with a letter or underscore, prefix `_`.  (`isalpha` is
embedded as ASCII `Char.isAlpha`; every identifier in the repository is
ASCII.) -/
def cleanWidgetId (widget_id : Str) : Str :=
  let clean_id := pyReplace (str "-") (str "_") widget_id
  if !clean_id.isEmpty && !headAlphaOrUnderscore clean_id then
    '_' :: clean_id
  else
    clean_id

/-! ### `CodeGenerator.generate_code` (src/core/code_generator.py lines 36-171) -/

/-- Window-properties dictionary passed to the generator (all eight keys of
the default dictionary at lines 39-49). -/
structure WindowProperties where
  title : Str
  width : Int
  height : Int
  resizable : Bool
  min_width : Int
  min_height : Int
  center_on_screen : Bool
  auto_fit : Bool
  deriving DecidableEq, Repr

/-- The default `window_properties` dictionary (lines 39-49). -/
def defaultWindowProperties : WindowProperties :=
  { title := str "Generated GUI", width := 800, height := 600,
    resizable := true, min_width := 400, min_height := 300,
    center_on_screen := true, auto_fit := true }

/-- Python `max()` over a nonempty list (the `[]` case is unreachable at
every call site: `max()` of an empty sequence raises, and the code guards
with nonemptiness). -/
def listMax : List Int → Int
  | [] => 0
  | x :: t => t.foldl max x

/-- Python `min()` over a nonempty list (same remark as `listMax`). -/
def listMin : List Int → Int
  | [] => 0
  | x :: t => t.foldl min x

/-- Lines 51-59: the effective `(window_width, window_height)` used by the
generated program, honouring `auto_fit`. -/
def effectiveWindowSize (widgets : List (Str × WidgetData))
    (wp : WindowProperties) : Int × Int :=
  if wp.auto_fit && !widgets.isEmpty then
    let max_x := listMax (widgets.map (fun p => p.2.x + p.2.width)) + 50
    let max_y := listMax (widgets.map (fun p => p.2.y + p.2.height)) + 50
    (max wp.width max_x, max wp.height max_y)
  else
    (wp.width, wp.height)

/-- `widget.properties[k].value`; `KeyError` is unreachable because the
generator's contract assumes schema-correct documents. -/
def propsGet (props : List (Str × WidgetProperty)) (k : Str) : PValue :=
  match props with
  | [] => PValue.vNone
  | (k', v) :: t => if k' = k then v.value else propsGet t k

/-- Python `repr` of a list of strings, as rendered by an f-string
(`['a', 'b']`; the strings contain no quotes in any document considered). -/
def listRepr (l : List Str) : Str :=
  '[' :: pyJoin (str ", ") (l.map (fun s => '\'' :: (s ++ ['\'']))) ++ [']']

/-- Python `str()` of a property value, as interpolated by an f-string. -/
def pvalStr : PValue → Str
  | .vStr s => s
  | .vInt n => intStr n
  | .vBool b => if b then str "True" else str "False"
  | .vList l => listRepr l
  | .vFloatLit s => s
  | .vNone => str "None"

/-- Python truthiness of a property value (`if command:` etc.). -/
def pvalTruthy : PValue → Bool
  | .vStr s => !s.isEmpty
  | .vInt n => n != 0
  | .vBool b => b
  | .vList l => !l.isEmpty
  | .vFloatLit _ => true
  | .vNone => false

/-- The `,`-split of a combobox `values` property (a string in the model). -/
def pvalSplitComma : PValue → List Str
  | .vStr s => pySplit ',' s
  | _ => []

/-- f-string rendering of `value/100` in the progressbar branch.  Python
divides binary floats; the embedding renders the exact decimal of `n/100`
(with at least one fractional digit), which coincides with `str(n/100)`
for every magnitude the application produces. -/
def floatDivStr : PValue → Str
  | .vInt n =>
      let a := n.natAbs
      let ip := intStr ((a / 100 : Nat) : Int)
      let fr := a % 100
      let sign := if n < 0 then str "-" else []
      let frac :=
        if fr = 0 then str "0"
        else if fr % 10 = 0 then intStr ((fr / 10 : Nat) : Int)
        else (if fr < 10 then '0' :: intStr ((fr : Nat) : Int)
              else intStr ((fr : Nat) : Int))
      sign ++ ip ++ ['.'] ++ frac
  | v => pvalStr v

/-- The newline joining the generated lines. -/
def newline : Str := ['\n']

/-- `CodeGenerator.generate_widget_code` (lines 173-319). -/
def generateWidgetCode (w : WidgetData) : Str :=
  let props := w.properties
  let clean_id := cleanWidgetId w.id
  let placeOf (kind : String) : Str :=
    str ("        self." ++ kind ++ "_") ++ clean_id ++ str ".place(x=" ++
      intStr w.x ++ str ", y=" ++ intStr w.y ++ str ")"
  let headerOf (kind : String) : Str :=
    str ("        # " ++ kind ++ " at (") ++ intStr w.x ++ str ", " ++
      intStr w.y ++ str ")"
  match w.type with
  | .button =>
      let text := propsGet props (str "text")
      let width := propsGet props (str "width")
      let height := propsGet props (str "height")
      let command := propsGet props (str "command")
      pyJoin newline
        ([headerOf "Button",
          str "        self.button_" ++ clean_id ++ str " = ctk.CTkButton(",
          str "            self, text='" ++ pvalStr text ++ str "', width=" ++
            pvalStr width ++ str ", height=" ++ pvalStr height] ++
         (if pvalTruthy command then
            [str "            , command=" ++ pvalStr command]
          else []) ++
         [str "        )", placeOf "button"])
  | .label =>
      let text := propsGet props (str "text")
      let width := propsGet props (str "width")
      let height := propsGet props (str "height")
      let font_size := propsGet props (str "font_size")
      pyJoin newline
        [headerOf "Label",
         str "        self.label_" ++ clean_id ++ str " = ctk.CTkLabel(",
         str "            self, text='" ++ pvalStr text ++ str "', width=" ++
           pvalStr width ++ str ", height=" ++ pvalStr height ++ str ",",
         str "            font=ctk.CTkFont(size=" ++ pvalStr font_size ++ str ")",
         str "        )", placeOf "label"]
  | .entry =>
      let placeholder := propsGet props (str "placeholder")
      let width := propsGet props (str "width")
      let height := propsGet props (str "height")
      pyJoin newline
        [headerOf "Entry",
         str "        self.entry_" ++ clean_id ++ str " = ctk.CTkEntry(",
         str "            self, placeholder_text='" ++ pvalStr placeholder ++
           str "', width=" ++ pvalStr width ++ str ", height=" ++ pvalStr height,
         str "        )", placeOf "entry"]
  | .checkbox =>
      let text := propsGet props (str "text")
      let checked := propsGet props (str "checked")
      let width := propsGet props (str "width")
      let height := propsGet props (str "height")
      pyJoin newline
        ([headerOf "Checkbox",
          str "        self.checkbox_" ++ clean_id ++ str " = ctk.CTkCheckBox(",
          str "            self, text='" ++ pvalStr text ++ str "', width=" ++
            pvalStr width ++ str ", height=" ++ pvalStr height,
          str "        )"] ++
         (if pvalTruthy checked then
            [str "        self.checkbox_" ++ clean_id ++ str ".select()"]
          else []) ++
         [placeOf "checkbox"])
  | .combobox =>
      let values := propsGet props (str "values")
      let width := propsGet props (str "width")
      let height := propsGet props (str "height")
      pyJoin newline
        [headerOf "Combobox",
         str "        self.combobox_" ++ clean_id ++ str " = ctk.CTkComboBox(",
         str "            self, values=" ++ listRepr (pvalSplitComma values) ++
           str ", width=" ++ pvalStr width ++ str ", height=" ++ pvalStr height,
         str "        )", placeOf "combobox"]
  | .slider =>
      let from_val := propsGet props (str "from_")
      let to_val := propsGet props (str "to")
      let value := propsGet props (str "value")
      let width := propsGet props (str "width")
      let height := propsGet props (str "height")
      pyJoin newline
        [headerOf "Slider",
         str "        self.slider_" ++ clean_id ++ str " = ctk.CTkSlider(",
         str "            self, from_=" ++ pvalStr from_val ++ str ", to=" ++
           pvalStr to_val ++ str ", width=" ++ pvalStr width ++ str ", height=" ++
           pvalStr height,
         str "        )",
         str "        self.slider_" ++ clean_id ++ str ".set(" ++
           pvalStr value ++ str ")",
         placeOf "slider"]
  | .progressbar =>
      let mode := propsGet props (str "mode")
      let value := propsGet props (str "value")
      let width := propsGet props (str "width")
      let height := propsGet props (str "height")
      pyJoin newline
        ([headerOf "Progressbar",
          str "        self.progressbar_" ++ clean_id ++
            str " = ctk.CTkProgressBar(",
          str "            self, width=" ++ pvalStr width ++ str ", height=" ++
            pvalStr height,
          str "        )"] ++
         (if mode = PValue.vStr (str "determinate") then
            [str "        self.progressbar_" ++ clean_id ++ str ".set(" ++
               floatDivStr value ++ str ")"]
          else []) ++
         [placeOf "progressbar"])

/-- `CodeGenerator.generate_code` (lines 36-171): the full generated
program text.  The caller always passes a window-properties dictionary, so
the `None`-default branch is covered by `defaultWindowProperties`. -/
def generateCode (widgets : List (Str × WidgetData))
    (window_properties : WindowProperties) : Str :=
  let sz := effectiveWindowSize widgets window_properties
  let window_width := sz.1
  let window_height := sz.2
  let geom := intStr window_width ++ ['x'] ++ intStr window_height
  let geomLine := str "        self.geometry('" ++ geom ++ str "')"
  let updLine := str "        self.update_idletasks()"
  let importsA : List Str :=
    [str "#!/usr/bin/env python3",
     str "\x22\x22\x22",
     str "Generated GUI Application",
     str "Created with Professional Python GUI Builder MVP",
     str "\x22\x22\x22",
     str "",
     str "import customtkinter as ctk",
     str "import tkinter as tk",
     str "",
     str "# Set appearance mode and color theme",
     str "ctk.set_appearance_mode('dark')",
     str "ctk.set_default_color_theme('blue')",
     str "",
     str "class GeneratedApp(ctk.CTk):",
     str "    \x22\x22\x22Generated GUI Application\x22\x22\x22",
     str "    ",
     str "    def __init__(self):",
     str "        super().__init__()",
     str "        self.title('" ++ window_properties.title ++ str "')"]
  let importsB : List Str :=
    (if !window_properties.resizable then
       [str "        self.resizable(False, False)"]
     else []) ++
    [str "        self.minsize(" ++ intStr window_properties.min_width ++
       str ", " ++ intStr window_properties.min_height ++ str ")",
     geomLine,
     str "        self.update_idletasks()  # Force window to update",
     str "        self.state('normal')  # Ensure window is not minimized",
     geomLine ++ str "  # Set size again",
     updLine,
     str "        self.setup_ui()",
     str "        # Use after to delay size enforcement",
     str "        self.after(100, self.enforce_window_size)",
     str "        self.after(200, self.center_window)",
     str "",
     str "    def enforce_window_size(self):",
     str "        \x22\x22\x22Aggressively enforce the window size\x22\x22\x22",
     geomLine,
     updLine,
     str "        self.tk.call('wm', 'geometry', self._w, '" ++ geom ++ str "')",
     updLine,
     str "        self.state('normal')",
     geomLine,
     updLine,
     str "        try:",
     str "            self.configure(width=" ++ intStr window_width ++
       str ", height=" ++ intStr window_height ++ str ")",
     str "            self.update_idletasks()",
     str "        except:",
     str "            pass",
     geomLine,
     updLine,
     str "",
     str "    def setup_ui(self):",
     str "        \x22\x22\x22Setup the user interface\x22\x22\x22"]
  let importsC : List Str :=
    if window_properties.center_on_screen then
      [str "        # Center window on screen after UI is set up",
       str "        self.center_window()",
       str "        ",
       str "    def center_window(self):",
       str "        \x22\x22\x22Center the window on screen\x22\x22\x22",
       updLine,
       str "        # Force window to correct size multiple times to ensure it sticks",
       geomLine,
       updLine,
       geomLine ++ str "  # Set again to ensure it sticks",
       updLine,
       str "        ",
       str "        # Get actual dimensions",
       str "        width = self.winfo_width()",
       str "        height = self.winfo_height()",
       str "        ",
       str "        # If window is still too small, force it again",
       str "        if width < " ++ intStr (window_width - 100) ++
         str " or height < " ++ intStr (window_height - 100) ++ str ":",
       str "            self.geometry('" ++ geom ++ str "')",
       str "            self.update_idletasks()",
       str "            width = self.winfo_width()",
       str "            height = self.winfo_height()",
       str "        ",
       str "        # Center the window",
       str "        x = (self.winfo_screenwidth() // 2) - (width // 2)",
       str "        y = (self.winfo_screenheight() // 2) - (height // 2)",
       str "        self.geometry(f'{width}x{height}+{x}+{y}')"]
    else []
  let widget_code := widgets.map (fun p => generateWidgetCode p.2)
  pyJoin newline
    (importsA ++ importsB ++ importsC ++ widget_code ++
     [str "",
      str "if __name__ == '__main__':",
      str "    app = GeneratedApp()",
      str "    app.mainloop()"])

end PyGui

namespace PyGui

/-! ### `CodeParser` (src/core/code_parser.py)

Python exceptions are embedded explicitly: the catch-all around the main
scan (lines 28-105) becomes an `Except` whose `error` payload is the
window-properties dictionary at the moment of the escaping exception
(line 105 returns `{}, window_properties`, and the dictionary keeps the
updates made before the failure).  The helper extractors have local
`try`/`except` blocks returning defaults, so they are total functions. -/

/-- The parser's `window_properties` dictionary (lines 18-26; note it has
no `auto_fit` key). -/
structure ParsedWindowProps where
  title : Str
  width : Int
  height : Int
  resizable : Bool
  min_width : Int
  min_height : Int
  center_on_screen : Bool
  deriving DecidableEq, Repr

/-- Initial value of the parser's `window_properties` (lines 18-26). -/
def initParsedWindowProps : ParsedWindowProps :=
  { title := str "Generated GUI", width := 800, height := 600,
    resizable := true, min_width := 400, min_height := 300,
    center_on_screen := true }

/-- `CodeParser._extract_string_value` (lines 107-127): the text between
the first quote and the next quote, searching `'` before `"` each time;
`""` on failure. -/
def extractStringValue (line : Str) : Str :=
  let s0 := pyFind line ['\'']
  let s1 := if s0 = -1 then pyFind line ['"'] else s0
  if s1 = -1 then []
  else
    let st := s1.toNat + 1
    let e0 := pyFindFrom line ['\''] st
    let e1 := if e0 = -1 then pyFindFrom line ['"'] st else e0
    if e1 = -1 then [] else pySlice line st e1.toNat

/-- `CodeParser._extract_variable_name` (lines 358-373): the text between
`self.` and the following ` =`. -/
def extractVariableName (line : Str) : Str :=
  let start := pyFind line (str "self.")
  if start = -1 then []
  else
    let e := pyFindFrom line (str " =") start.toNat
    if e = -1 then [] else pySlice line (start.toNat + 5) e.toNat

/-- Length of the numeric scan `while end < len(line) and (digit or '.'
or '-')` used by `_extract_property_value`. -/
def numScanLen (s : Str) : Nat :=
  (s.takeWhile (fun c => c.isDigit || c = '.' || c = '-')).length

/-- `CodeParser._extract_property_value` (lines 375-405): find
`prop_name=`, then read a quoted string or a numeric literal; any failure
(no match, index out of range, unmatched quote, `int`/`float` error)
returns the default. -/
def extractPropertyValue (line prop_name : Str) (default : PValue) : PValue :=
  let pattern := prop_name ++ ['=']
  let start0 := pyFind line pattern
  if start0 = -1 then default
  else
    let start := start0.toNat + pattern.length
    match pyAt line start with
    | none => default
    | some ch =>
      if ch = '\'' || ch = '"' then
        let st := start + 1
        let e := pyFindFrom line [ch] st
        if e = -1 then default else PValue.vStr (pySlice line st e.toNat)
      else
        let e := start + numScanLen (line.drop start)
        if e = start then default
        else
          let numstr := pySlice line start e
          if pyIn ['.'] numstr then
            if pyFloatOk numstr then PValue.vFloatLit numstr else default
          else
            match pyInt numstr with
            | some n => PValue.vInt n
            | none => default

/-- Numeric scan of `_extract_position`: digits or `-` only. -/
def posScanLen (s : Str) : Nat :=
  (s.takeWhile (fun c => c.isDigit || c = '-')).length

/-- `CodeParser._extract_position` (lines 407-435): recover `(x, y)` from
a `.place(x=..., y=...)` line; `(0, 0)` on any failure. -/
def extractPosition (line : Str) : Int × Int :=
  let xs0 := pyFind line (str "x=")
  if xs0 = -1 then (0, 0)
  else
    let x_start := xs0.toNat + 2
    let x_end := x_start + posScanLen (line.drop x_start)
    let ys0 := pyFind line (str "y=")
    if ys0 = -1 then (0, 0)
    else
      let y_start := ys0.toNat + 2
      let y_end := y_start + posScanLen (line.drop y_start)
      -- `x = int(...) if x_start < x_end else 0`, then the same for `y`;
      -- an `int()` failure is caught by the local handler and yields (0, 0)
      let xv := if x_start < x_end then pyInt (pySlice line x_start x_end)
                else some 0
      match xv with
      | none => (0, 0)
      | some x =>
        let yv := if y_start < y_end then pyInt (pySlice line y_start y_end)
                  else some 0
        match yv with
        | none => (0, 0)
        | some y => (x, y)

/-- Integer value of an extracted property, as stored in the dynamic
`WidgetData` geometry fields.  On every input evaluated by the theorems
below the extractor returns `vInt`, so the coercion is exact. -/
def pvAsInt (v : PValue) (d : Int) : Int :=
  match v with
  | .vInt n => n
  | _ => d

/-- Python `a or b` on property values (`text or 'Button'`). -/
def pyOr (a b : PValue) : PValue := if pvalTruthy a then a else b

/-- `CodeParser._parse_button_block` (lines 157-185). -/
def parseButtonBlock (widget_text : Str) (place_line : Option Str) : WidgetData :=
  let var_name := extractVariableName widget_text
  let widget_id := pyReplace (str "button_") [] var_name
  let text := extractPropertyValue widget_text (str "text") PValue.vNone
  let width := extractPropertyValue widget_text (str "width") (PValue.vInt 100)
  let height := extractPropertyValue widget_text (str "height") (PValue.vInt 30)
  let pos := match place_line with
             | some pl => extractPosition pl
             | none => (0, 0)
  { id := widget_id, type := .button, x := pos.1, y := pos.2,
    width := pvAsInt width 100, height := pvAsInt height 30,
    properties :=
      [(str "text", ⟨str "text", pyOr text (.vStr (str "Button")), str "str", none⟩),
       (str "width", ⟨str "width", width, str "int", none⟩),
       (str "height", ⟨str "height", height, str "int", none⟩)] }

/-- `CodeParser._parse_label_block` (lines 187-212). -/
def parseLabelBlock (widget_text : Str) (place_line : Option Str) : WidgetData :=
  let var_name := extractVariableName widget_text
  let widget_id := pyReplace (str "label_") [] var_name
  let text := extractPropertyValue widget_text (str "text") PValue.vNone
  let width := extractPropertyValue widget_text (str "width") (PValue.vInt 200)
  let height := extractPropertyValue widget_text (str "height") (PValue.vInt 30)
  let pos := match place_line with
             | some pl => extractPosition pl
             | none => (0, 0)
  { id := widget_id, type := .label, x := pos.1, y := pos.2,
    width := pvAsInt width 200, height := pvAsInt height 30,
    properties :=
      [(str "text", ⟨str "text", pyOr text (.vStr (str "Label")), str "str", none⟩),
       (str "width", ⟨str "width", width, str "int", none⟩),
       (str "height", ⟨str "height", height, str "int", none⟩)] }

/-- `CodeParser._parse_entry_block` (lines 214-239). -/
def parseEntryBlock (widget_text : Str) (place_line : Option Str) : WidgetData :=
  let var_name := extractVariableName widget_text
  let widget_id := pyReplace (str "entry_") [] var_name
  let placeholder :=
    extractPropertyValue widget_text (str "placeholder_text") PValue.vNone
  let width := extractPropertyValue widget_text (str "width") (PValue.vInt 200)
  let height := extractPropertyValue widget_text (str "height") (PValue.vInt 30)
  let pos := match place_line with
             | some pl => extractPosition pl
             | none => (0, 0)
  { id := widget_id, type := .entry, x := pos.1, y := pos.2,
    width := pvAsInt width 200, height := pvAsInt height 30,
    properties :=
      [(str "placeholder_text",
        ⟨str "placeholder_text", pyOr placeholder (.vStr []), str "str", none⟩),
       (str "width", ⟨str "width", width, str "int", none⟩),
       (str "height", ⟨str "height", height, str "int", none⟩)] }

/-- `CodeParser._parse_checkbox_block` (lines 241-266). -/
def parseCheckboxBlock (widget_text : Str) (place_line : Option Str) : WidgetData :=
  let var_name := extractVariableName widget_text
  let widget_id := pyReplace (str "checkbox_") [] var_name
  let text := extractPropertyValue widget_text (str "text") PValue.vNone
  let width := extractPropertyValue widget_text (str "width") (PValue.vInt 200)
  let height := extractPropertyValue widget_text (str "height") (PValue.vInt 30)
  let pos := match place_line with
             | some pl => extractPosition pl
             | none => (0, 0)
  { id := widget_id, type := .checkbox, x := pos.1, y := pos.2,
    width := pvAsInt width 200, height := pvAsInt height 30,
    properties :=
      [(str "text", ⟨str "text", pyOr text (.vStr (str "Checkbox")), str "str", none⟩),
       (str "width", ⟨str "width", width, str "int", none⟩),
       (str "height", ⟨str "height", height, str "int", none⟩)] }

/-- `values` post-processing of `_parse_combobox_block` (lines 283-286). -/
def comboValuesList (values : PValue) : List Str :=
  match values with
  | .vStr s =>
      if pyStarts s ['['] && pyStarts s.reverse [']'] then
        (pySplit ',' (pySlice s 1 (s.length - 1))).map
          (fun v => (pyStrip v).dropWhile (fun c => c = '\'' || c = '"')
                      |>.reverse.dropWhile (fun c => c = '\'' || c = '"') |>.reverse)
      else []
  | _ => []

/-- `CodeParser._parse_combobox_block` (lines 268-299). -/
def parseComboboxBlock (widget_text : Str) (place_line : Option Str) : WidgetData :=
  let var_name := extractVariableName widget_text
  let widget_id := pyReplace (str "combobox_") [] var_name
  let values := extractPropertyValue widget_text (str "values") PValue.vNone
  let width := extractPropertyValue widget_text (str "width") (PValue.vInt 200)
  let height := extractPropertyValue widget_text (str "height") (PValue.vInt 30)
  let pos := match place_line with
             | some pl => extractPosition pl
             | none => (0, 0)
  { id := widget_id, type := .combobox, x := pos.1, y := pos.2,
    width := pvAsInt width 200, height := pvAsInt height 30,
    properties :=
      [(str "values", ⟨str "values", .vList (comboValuesList values), str "list", none⟩),
       (str "width", ⟨str "width", width, str "int", none⟩),
       (str "height", ⟨str "height", height, str "int", none⟩)] }

/-- `CodeParser._parse_slider_block` (lines 301-329). -/
def parseSliderBlock (widget_text : Str) (place_line : Option Str) : WidgetData :=
  let var_name := extractVariableName widget_text
  let widget_id := pyReplace (str "slider_") [] var_name
  let from_val := extractPropertyValue widget_text (str "from_") (PValue.vInt 0)
  let to_val := extractPropertyValue widget_text (str "to") (PValue.vInt 100)
  let width := extractPropertyValue widget_text (str "width") (PValue.vInt 200)
  let height := extractPropertyValue widget_text (str "height") (PValue.vInt 20)
  let pos := match place_line with
             | some pl => extractPosition pl
             | none => (0, 0)
  { id := widget_id, type := .slider, x := pos.1, y := pos.2,
    width := pvAsInt width 200, height := pvAsInt height 20,
    properties :=
      [(str "from_", ⟨str "from_", from_val, str "int", none⟩),
       (str "to", ⟨str "to", to_val, str "int", none⟩),
       (str "value", ⟨str "value", .vInt 50, str "int", none⟩),
       (str "width", ⟨str "width", width, str "int", none⟩),
       (str "height", ⟨str "height", height, str "int", none⟩)] }

/-- `CodeParser._parse_progressbar_block` (lines 331-356). -/
def parseProgressbarBlock (widget_text : Str) (place_line : Option Str) : WidgetData :=
  let var_name := extractVariableName widget_text
  let widget_id := pyReplace (str "progressbar_") [] var_name
  let width := extractPropertyValue widget_text (str "width") (PValue.vInt 200)
  let height := extractPropertyValue widget_text (str "height") (PValue.vInt 20)
  let pos := match place_line with
             | some pl => extractPosition pl
             | none => (0, 0)
  { id := widget_id, type := .progressbar, x := pos.1, y := pos.2,
    width := pvAsInt width 200, height := pvAsInt height 20,
    properties :=
      [(str "mode", ⟨str "mode", .vStr (str "determinate"), str "str", none⟩),
       (str "value", ⟨str "value", .vInt 50, str "int", none⟩),
       (str "width", ⟨str "width", width, str "int", none⟩),
       (str "height", ⟨str "height", height, str "int", none⟩)] }

/-- `CodeParser._parse_widget_block` (lines 129-155): dispatch on the kind
substring of the joined block text.  The per-kind extractors are total, so
the surrounding `try`/`except` never fires in the embedding. -/
def parseWidgetBlock (widget_lines : List Str) (place_line : Option Str) :
    Option WidgetData :=
  let widget_text := pyJoin (str " ") widget_lines
  if pyIn (str "self.button_") widget_text then
    some (parseButtonBlock widget_text place_line)
  else if pyIn (str "self.label_") widget_text then
    some (parseLabelBlock widget_text place_line)
  else if pyIn (str "self.entry_") widget_text then
    some (parseEntryBlock widget_text place_line)
  else if pyIn (str "self.checkbox_") widget_text then
    some (parseCheckboxBlock widget_text place_line)
  else if pyIn (str "self.combobox_") widget_text then
    some (parseComboboxBlock widget_text place_line)
  else if pyIn (str "self.slider_") widget_text then
    some (parseSliderBlock widget_text place_line)
  else if pyIn (str "self.progressbar_") widget_text then
    some (parseProgressbarBlock widget_text place_line)
  else none

/-- The widget-kind names of the creation-line test at line 65. -/
def widgetTypeNames : List Str :=
  [str "button", str "label", str "entry", str "checkbox", str "combobox",
   str "slider", str "progressbar"]

/-- Line 65: an assignment to `self.<kind>_...` that is not a `.place(` call. -/
def isCreationLine (line : Str) : Bool :=
  (widgetTypeNames.any fun k => pyIn (str "self." ++ k ++ ['_']) line) &&
    !(pyIn (str ".place(") line)

/-- Geometry handling at lines 44-50.  `width, height =
geometry.split('x')` raises `ValueError` on a split with more or fewer
than two parts, and `int(...)` may raise; either aborts the whole scan
(the error carries the dictionary with the updates already applied). -/
def applyGeometryLine (line : Str) (props : ParsedWindowProps) :
    Except ParsedWindowProps ParsedWindowProps :=
  let geometry := extractStringValue line
  if !geometry.isEmpty && pyIn ['x'] geometry then
    match pySplit 'x' geometry with
    | [wstr, hstr] =>
        match pyInt wstr with
        | none => .error props
        | some w =>
          let props := { props with width := w }
          match pyInt hstr with
          | none => .error props
          | some h => .ok { props with height := h }
    | _ => .error props
  else
    .ok props

/-- Window-property handling at lines 38-50 (an `if`/`elif` chain). -/
def applyWindowPropsLine (line : Str) (props : ParsedWindowProps) :
    Except ParsedWindowProps ParsedWindowProps :=
  if pyIn (str "self.title(") line then
    let title := extractStringValue line
    .ok (if !title.isEmpty then { props with title := title } else props)
  else if pyIn (str "self.geometry(") line then
    applyGeometryLine line props
  else
    .ok props

/-- The main loop of `parse_code_to_widgets` (lines 35-96), one recursive
step per line.  `current` holds the stripped lines of the widget block
being collected; the lookahead for the `.place(` call inspects the next
four raw lines.  The two `startswith("        #")`/`startswith("        self.")`
tests at line 93 are vacuous because `line` was already stripped. -/
def scanLines (lines : List Str) (in_setup_ui : Bool) (current : List Str)
    (widgets : List (Str × WidgetData)) (props : ParsedWindowProps) :
    Except ParsedWindowProps (List (Str × WidgetData) × ParsedWindowProps) :=
  match lines with
  | [] => .ok (widgets, props)
  | raw :: rest =>
    let line := pyStrip raw
    match applyWindowPropsLine line props with
    | .error p => .error p
    | .ok props =>
      if pyIn (str "def setup_ui(self):") line then
        scanLines rest true current widgets props
      else
        let in_setup_ui :=
          if pyStarts line (str "def ") && in_setup_ui then false else in_setup_ui
        if !in_setup_ui then
          scanLines rest in_setup_ui current widgets props
        else if isCreationLine line then
          scanLines rest in_setup_ui [line] widgets props
        else if !current.isEmpty && line = [')'] then
          let block := current ++ [line]
          let place_line :=
            (List.find? (fun l => pyIn (str ".place(") l) (rest.take 4)).map pyStrip
          let widgets :=
            match parseWidgetBlock block place_line with
            | some wd => aSet widgets wd.id wd
            | none => widgets
          scanLines rest in_setup_ui [] widgets props
        else if !current.isEmpty && !line.isEmpty then
          scanLines rest in_setup_ui (current ++ [line]) widgets props
        else
          scanLines rest in_setup_ui current widgets props

/-- `CodeParser.parse_code_to_widgets` (lines 13-105): split into lines,
scan, and on any escaping exception fall back to the empty widget map
paired with the window properties recognized so far (line 105). -/
def parseCodeToWidgets (code : Str) :
    List (Str × WidgetData) × ParsedWindowProps :=
  match scanLines (pySplit '\n' code) false [] [] initParsedWindowProps with
  | .ok r => r
  | .error p => ([], p)

end PyGui

namespace PyGui

/-! ### `DesignCanvas` history and groups (src/ui/design_canvas.py)

Only the model-relevant state is embedded: the widget dictionary, the
group dictionary, the selection, and the two history stacks (lines 36-40:
`self.widgets`, `self.groups`, `self.selected_widget_id`,
`self.selected_widget_ids`, `self.undo_stack`, `self.redo_stack`,
`self.max_undo_steps = 50`).  Rendering calls are no-ops on this state. -/

/-- A history snapshot (lines 1130-1133): the dictionary
`{'widgets': {k: v.to_dict() ...}, 'selected_widget_id': ...}`. -/
structure Snapshot where
  widgets : List (Str × WidgetDict)
  selected_widget_id : Option Str
  deriving DecidableEq, Repr

/-- The embedded canvas state. -/
structure CanvasState where
  widgets : List (Str × WidgetData)
  groups : List (Str × WidgetGroup)
  selected_widget_id : Option Str
  selected_widget_ids : List Str
  undo_stack : List Snapshot
  redo_stack : List Snapshot
  deriving DecidableEq, Repr

/-- `self.max_undo_steps` (line 40). -/
def maxUndoSteps : Nat := 50

/-- The canvas at start-up: everything empty. -/
def initCanvas : CanvasState :=
  { widgets := [], groups := [], selected_widget_id := none,
    selected_widget_ids := [], undo_stack := [], redo_stack := [] }

/-- The snapshot of the current state built by `save_state` and friends. -/
def snapshotOf (st : CanvasState) : Snapshot :=
  { widgets := st.widgets.map (fun p => (p.1, p.2.toDict)),
    selected_widget_id := st.selected_widget_id }

/-- `DesignCanvas.save_state` (lines 1125-1135): evict the oldest entry
when full, append the snapshot, clear the redo stack. -/
def saveState (st : CanvasState) : CanvasState :=
  let undo := if st.undo_stack.length ≥ maxUndoSteps
              then st.undo_stack.drop 1 else st.undo_stack
  { st with undo_stack := undo ++ [snapshotOf st], redo_stack := [] }

/-- `DesignCanvas.save_state_to_undo` (lines 1137-1143): unbounded append. -/
def saveStateToUndo (st : CanvasState) : CanvasState :=
  { st with undo_stack := st.undo_stack ++ [snapshotOf st] }

/-- `DesignCanvas.save_state_to_redo` (lines 1145-1151): unbounded append. -/
def saveStateToRedo (st : CanvasState) : CanvasState :=
  { st with redo_stack := st.redo_stack ++ [snapshotOf st] }

/-- The widget rebuilt by `restore_state` (lines 1159-1176): the
constructor is called without `group_id` and `layer`, so those two fields
take the dataclass defaults even though the snapshot recorded them. -/
def widgetOfDict (d : WidgetDict) : WidgetData :=
  { id := d.id, type := d.type, x := d.x, y := d.y,
    width := d.width, height := d.height, properties := d.properties }

/-- `DesignCanvas.select_widget` (lines 635-640), on the embedded state. -/
def selectWidget (st : CanvasState) (wid : Str) : CanvasState :=
  { st with selected_widget_id := some wid, selected_widget_ids := [wid] }

/-- `DesignCanvas.deselect_all` (lines 665-671), on the embedded state. -/
def deselectAll (st : CanvasState) : CanvasState :=
  { st with selected_widget_id := none, selected_widget_ids := [] }

/-- `DesignCanvas.restore_state` (lines 1153-1187): clear the widget map,
rebuild every widget from its snapshot dictionary (keyed by the rebuilt
widget's `id`), then restore the selection when it is truthy and alive. -/
def restoreState (st : CanvasState) (s : Snapshot) : CanvasState :=
  let widgets := s.widgets.foldl
    (fun m p => aSet m (widgetOfDict p.2).id (widgetOfDict p.2)) []
  let st := { st with widgets := widgets }
  match s.selected_widget_id with
  | some wid =>
      if !wid.isEmpty && (aGet st.widgets wid).isSome then selectWidget st wid
      else deselectAll st
  | none => deselectAll st

/-- `DesignCanvas.on_undo` (lines 1062-1070): when the undo stack is
nonempty, push the current state on the redo stack, pop the undo stack,
and restore the popped snapshot. -/
def onUndo (st : CanvasState) : CanvasState :=
  match st.undo_stack.getLast? with
  | none => st
  | some state =>
      let st1 := saveStateToRedo st
      restoreState { st1 with undo_stack := st1.undo_stack.dropLast } state

/-- `DesignCanvas.on_redo` (lines 1072-1080): symmetric to `on_undo`. -/
def onRedo (st : CanvasState) : CanvasState :=
  match st.redo_stack.getLast? with
  | none => st
  | some state =>
      let st1 := saveStateToUndo st
      restoreState { st1 with redo_stack := st1.redo_stack.dropLast } state

/-- One step of the interleavings quantified over by the history claims:
the three public history operations plus an arbitrary model edit (which
touches neither stack). -/
inductive HistOp where
  | save
  | undo
  | redo
  | edit (widgets : List (Str × WidgetData)) (sel : Option Str)

/-- Apply one history operation. -/
def applyHistOp (st : CanvasState) : HistOp → CanvasState
  | .save => saveState st
  | .undo => onUndo st
  | .redo => onRedo st
  | .edit w s => { st with widgets := w, selected_widget_id := s }

/-- Apply a sequence of history operations. -/
def applyHistOps (st : CanvasState) (ops : List HistOp) : CanvasState :=
  ops.foldl applyHistOp st

end PyGui

namespace PyGui

/-! ### Group operations (src/ui/design_canvas.py lines 1228-1490) -/

/-- Python truthiness of an optional string (`if widget.group_id:`). -/
def optTruthy : Option Str → Bool
  | some s => !s.isEmpty
  | none => false

/-- The live member rectangles of a group: `self.widgets[wid] for wid in
group.widget_ids if wid in self.widgets`, in member order. -/
def memberRects (st : CanvasState) (g : WidgetGroup) : List WidgetData :=
  g.widget_ids.filterMap (fun wid => aGet st.widgets wid)

/-- The group rectangle recomputed by `update_group_bounds` (lines
1360-1368): the smallest rectangle enclosing the live member rectangles. -/
def unionGroup (group : WidgetGroup) (live : List WidgetData) : WidgetGroup :=
  let min_x := listMin (live.map (fun v => v.x))
  let min_y := listMin (live.map (fun v => v.y))
  let max_x := listMax (live.map (fun v => v.x + v.width))
  let max_y := listMax (live.map (fun v => v.y + v.height))
  { group with
    x := min_x, y := min_y,
    width := max_x - min_x, height := max_y - min_y }

/-- `DesignCanvas.update_group_bounds` (lines 1351-1369).  When no member
id is live the Python `min()` raises `ValueError` (marked below); that
branch is unreachable under the liveness hypotheses of the theorems. -/
def updateGroupBounds (st : CanvasState) (group_id : Str) : CanvasState :=
  match aGet st.groups group_id with
  | none => st
  | some group =>
    if group.widget_ids.isEmpty then st
    else
      match memberRects st group with
      | [] => st  -- Python: `min()` of an empty sequence raises here
      | w :: ws =>
        { st with groups := aSet st.groups group_id (unionGroup group (w :: ws)) }

/-- The member-translation loop of `move_group` (lines 1448-1453): each
live member's position is shifted by `(dx, dy)`. -/
def translateWidgets (m : List (Str × WidgetData)) (ids : List Str)
    (dx dy : Int) : List (Str × WidgetData) :=
  ids.foldl
    (fun m wid =>
      match aGet m wid with
      | some w => aSet m wid { w with x := w.x + dx, y := w.y + dy }
      | none => m)
    m

/-- `DesignCanvas.move_group` (lines 1441-1458): translate every live
member, then recompute the bounding box. -/
def moveGroup (st : CanvasState) (group_id : Str) (dx dy : Int) : CanvasState :=
  match aGet st.groups group_id with
  | none => st
  | some group =>
    updateGroupBounds
      { st with widgets := translateWidgets st.widgets group.widget_ids dx dy }
      group_id

/-- `DesignCanvas.resize_group` (lines 1460-1490): scale every live
member about the group origin with a floor of 20 per dimension, then set
the group's size to the requested size (the bounding box is *not*
recomputed from the members).  Python computes `rel * (new/old)` with
binary floats and truncates with `int()`; the embedding computes the
exact rational `rel * new / old` truncated toward zero (`Int.tdiv`),
which agrees with the float computation at every input the theorems
evaluate (the scales and products there are exactly representable). -/
def resizeGroup (st : CanvasState) (group_id : Str)
    (new_width new_height : Int) : CanvasState :=
  match aGet st.groups group_id with
  | none => st
  | some group =>
    -- scale_x = new_width / group.width if group.width > 0 else 1
    let sxn : Int := if group.width > 0 then new_width else 1
    let sxd : Int := if group.width > 0 then group.width else 1
    let syn_ : Int := if group.height > 0 then new_height else 1
    let syd : Int := if group.height > 0 then group.height else 1
    let widgets := group.widget_ids.foldl
      (fun m wid =>
        match aGet m wid with
        | some w =>
          let rel_x := w.x - group.x
          let rel_y := w.y - group.y
          aSet m wid
            { w with
              x := group.x + Int.tdiv (rel_x * sxn) sxd,
              y := group.y + Int.tdiv (rel_y * syn_) syd,
              width := max 20 (Int.tdiv (w.width * sxn) sxd),
              height := max 20 (Int.tdiv (w.height * syn_) syd) }
        | none => m)
      st.widgets
    let group' := { group with width := new_width, height := new_height }
    { st with widgets := widgets,
              groups := aSet st.groups group_id group' }

/-- Lines 1332-1334 of `remove_from_group`: `list.remove` drops the
first occurrence of the id from the member list. -/
def eraseGroupMember (st : CanvasState) (widget_id group_id : Str) : CanvasState :=
  match aGet st.groups group_id with
  | some group =>
      if widget_id ∈ group.widget_ids then
        let group' :=
          { group with widget_ids := group.widget_ids.erase widget_id }
        { st with groups := aSet st.groups group_id group' }
      else st
  | none => st

/-- Line 1337 of `remove_from_group`: `self.widgets[widget_id].group_id = None`. -/
def clearWidgetGroupId (st : CanvasState) (widget_id : Str) : CanvasState :=
  match aGet st.widgets widget_id with
  | some w =>
      let w' := { w with group_id := none }
      { st with widgets := aSet st.widgets widget_id w' }
  | none => st

/-- `DesignCanvas.remove_from_group` (lines 1322-1349): drop the id from
the member list, clear the widget's `group_id`, recompute the bounds. -/
def removeFromGroup (st : CanvasState) (widget_id group_id : Str) : CanvasState :=
  if !(aMem st.widgets widget_id) || !(aMem st.groups group_id) then st
  else
    updateGroupBounds
      (clearWidgetGroupId (eraseGroupMember st widget_id group_id) widget_id)
      group_id

/-- Line 1308 of `add_to_group`: `self.widgets[widget_id].group_id = group_id`. -/
def setWidgetGroupId (st : CanvasState) (widget_id group_id : Str) : CanvasState :=
  match aGet st.widgets widget_id with
  | some w =>
      let w' := { w with group_id := some group_id }
      { st with widgets := aSet st.widgets widget_id w' }
  | none => st

/-- Line 1309 of `add_to_group`: append the id to the member list. -/
def appendGroupMember (st : CanvasState) (widget_id group_id : Str) : CanvasState :=
  match aGet st.groups group_id with
  | some group =>
      let group' :=
        { group with widget_ids := group.widget_ids ++ [widget_id] }
      { st with groups := aSet st.groups group_id group' }
  | none => st

/-- The attachment tail of `add_to_group` (lines 1307-1316): set the
widget's `group_id`, append it to the member list, recompute the bounds. -/
def attachToGroup (st : CanvasState) (widget_id group_id : Str) : CanvasState :=
  updateGroupBounds
    (appendGroupMember (setWidgetGroupId st widget_id group_id) widget_id group_id)
    group_id

/-- `DesignCanvas.add_to_group` (lines 1297-1320): detach from the current
group when truthy, then attach to the target group. -/
def addToGroup (st : CanvasState) (widget_id group_id : Str) : CanvasState :=
  if !(aMem st.widgets widget_id) || !(aMem st.groups group_id) then st
  else
    let st :=
      match aGet st.widgets widget_id with
      | some w =>
          if optTruthy w.group_id then
            removeFromGroup st widget_id (w.group_id.getD [])
          else st
      | none => st
    attachToGroup st widget_id group_id

/-- The group bounding-box invariant of the specification: the group's
rectangle equals the smallest rectangle enclosing its live members'
rectangles (stated trivially when the group is absent or has no live
member, where the code leaves the bounds untouched or raises). -/
def groupBoundsInv (st : CanvasState) (group_id : Str) : Bool :=
  match aGet st.groups group_id with
  | none => true
  | some g =>
    match memberRects st g with
    | [] => true
    | w :: ws =>
      let live := w :: ws
      g.x = listMin (live.map (fun v => v.x)) &&
      g.y = listMin (live.map (fun v => v.y)) &&
      g.x + g.width = listMax (live.map (fun v => v.x + v.width)) &&
      g.y + g.height = listMax (live.map (fun v => v.y + v.height))

end PyGui

namespace PyGui

/-! ### Concrete documents, texts, and states used by the claims -/

/-- Scenario A: a Button with id `"a-1"`, text `"Click Me!"`, width 100,
height 30, at (50, 50), with the default (empty) command reference. -/
def scenarioAButton : WidgetData :=
  { id := str "a-1", type := .button, x := 50, y := 50, width := 100, height := 30,
    properties :=
      [(str "text", ⟨str "text", .vStr (str "Click Me!"), str "str", none⟩),
       (str "width", ⟨str "width", .vInt 100, str "int", none⟩),
       (str "height", ⟨str "height", .vInt 30, str "int", none⟩),
       (str "command", ⟨str "command", .vStr [], str "str", none⟩)] }

/-- Scenario A document: the single button keyed by its id. -/
def scenarioADoc : List (Str × WidgetData) := [(str "a-1", scenarioAButton)]

/-- The text generated for Scenario A with the default window properties. -/
def scenarioAGenerated : Str := generateCode scenarioADoc defaultWindowProperties

/-- Scenario B widget: 100×100 at (900, 900). -/
def scenarioBWidget : WidgetData :=
  { id := str "w1", type := .button, x := 900, y := 900, width := 100, height := 100,
    properties :=
      [(str "text", ⟨str "text", .vStr (str "B"), str "str", none⟩),
       (str "width", ⟨str "width", .vInt 100, str "int", none⟩),
       (str "height", ⟨str "height", .vInt 100, str "int", none⟩),
       (str "command", ⟨str "command", .vStr [], str "str", none⟩)] }

/-- Scenario B document. -/
def scenarioBDoc : List (Str × WidgetData) := [(str "w1", scenarioBWidget)]

/-- A well-formed generated text fragment: a title line, the setup-ui
header, and one complete button block with its placement call. -/
def c2GoodLines : List Str :=
  [str "        self.title('My App')",
   str "    def setup_ui(self):",
   str "        self.button_b = ctk.CTkButton(",
   str "            self, text='Hi', width=100, height=30",
   str "        )",
   str "        self.button_b.place(x=10, y=20)"]

/-- The joined good text. -/
def c2Good : Str := pyJoin newline c2GoodLines

/-- The good text followed by a malformed geometry line whose extraction
raises (`'1x2x3'` splits into three parts). -/
def c2Bad : Str :=
  pyJoin newline (c2GoodLines ++ [str "        self.geometry('1x2x3')"])

/-- The widget the parser recovers from the good text. -/
def c2Widget : WidgetData :=
  { id := str "b", type := .button, x := 10, y := 20, width := 100, height := 30,
    properties :=
      [(str "text", ⟨str "text", .vStr (str "Hi"), str "str", none⟩),
       (str "width", ⟨str "width", .vInt 100, str "int", none⟩),
       (str "height", ⟨str "height", .vInt 30, str "int", none⟩)] }

/-- A generated-shaped text whose button variable name contains the kind
prefix a second time (`self.button_my_button_1`, a legal sanitized id
`my_button_1`). -/
def c8Text : Str := pyJoin newline
  [str "    def setup_ui(self):",
   str "        self.button_my_button_1 = ctk.CTkButton(",
   str "            self, text='T', width=100, height=30",
   str "        )",
   str "        self.button_my_button_1.place(x=1, y=2)"]

/-- A 40×40 widget at the origin. -/
def widgetA : WidgetData :=
  { id := str "A", type := .button, x := 0, y := 0, width := 40, height := 40,
    properties := [], group_id := some (str "g") }

/-- A 40×40 widget at (60, 60). -/
def widgetB : WidgetData :=
  { id := str "B", type := .button, x := 60, y := 60, width := 40, height := 40,
    properties := [], group_id := some (str "g") }

/-- A group of `widgetA` and `widgetB` whose bounds equal their union. -/
def groupG : WidgetGroup :=
  { id := str "g", name := str "g", widget_ids := [str "A", str "B"],
    x := 0, y := 0, width := 100, height := 100 }

/-- Canvas with the two grouped widgets and correct group bounds. -/
def stGroup : CanvasState :=
  { initCanvas with
    widgets := [(str "A", widgetA), (str "B", widgetB)],
    groups := [(str "g", groupG)] }

/-- An ungrouped 30×30 widget at (120, 0). -/
def widgetC : WidgetData :=
  { id := str "C", type := .button, x := 120, y := 0, width := 30, height := 30,
    properties := [], group_id := none }

/-- `stGroup` with the ungrouped `widgetC` also present. -/
def stGroupC : CanvasState :=
  { stGroup with
    widgets := stGroup.widgets ++ [(str "C", widgetC)] }

/-- Canvas whose group bounds are stale (recorded 200×200 while the
member union is 100×100); reachable, e.g. after a `resize_group`. -/
def stStale : CanvasState :=
  { stGroup with
    groups := [(str "g", { groupG with width := 200, height := 200 })] }

/-- A state with one widget on layer 5 and a snapshot on the redo stack. -/
def stLayer : CanvasState :=
  { initCanvas with
    widgets := [(str "w", { widgetA with
      id := str "w", group_id := none, layer := 5 })],
    redo_stack := [{ widgets := [], selected_widget_id := none }] }

/-- A well-formed state with both stacks nonempty, used as a witness for
the amended undo/redo claim. -/
def stBoth : CanvasState :=
  { initCanvas with
    widgets := [(str "w", { widgetA with id := str "w", group_id := none })],
    selected_widget_id := some (str "w"),
    selected_widget_ids := [str "w"],
    undo_stack := [{ widgets := [], selected_widget_id := none }],
    redo_stack := [{ widgets := [], selected_widget_id := none }] }

/-- Scenario D: 51 snapshot-producing edits (each edit saves the current
state, then mutates the selection to a fresh value). -/
def scenarioDOps : List HistOp :=
  (List.range 51).flatMap
    (fun i => [HistOp.save, HistOp.edit [] (some (List.replicate (i + 1) 'a'))])

/-- The widget-field projection kept by `restore_state`: `group_id` and
`layer` are reset to the dataclass defaults. -/
def stripGroupLayer (w : WidgetData) : WidgetData :=
  { w with group_id := none, layer := 0 }

end PyGui

namespace PyGui

/-! ### Auxiliary definitions used by the theorems -/

/-- The character map performed by `widget_id.replace('-', '_')`. -/
def dashToUnderscore (c : Char) : Char := if c = '-' then '_' else c

/-- Total number of snapshots held by the two history stacks. -/
def histSize (st : CanvasState) : Nat :=
  st.undo_stack.length + st.redo_stack.length

/-- The selection is null or a truthy id of a live widget (true in every
state the canvas reaches through `select_widget`/`deselect_all`). -/
def selValid (st : CanvasState) : Bool :=
  match st.selected_widget_id with
  | none => true
  | some s => !s.isEmpty && (aGet st.widgets s).isSome

/-- Every widget is keyed by its own id and keys are unique (true in
every state the canvas reaches: widgets are stored as `widgets[w.id] = w`). -/
def widgetsWellKeyed (st : CanvasState) : Prop :=
  (∀ p ∈ st.widgets, p.2.id = p.1) ∧ (st.widgets.map Prod.fst).Nodup

end PyGui

namespace PyGui

/-! ### Lemmas: association lists -/

theorem aGet_aSet_self {α : Type} (m : List (Str × α)) (k : Str) (v : α) :
    aGet (aSet m k v) k = some v := by
  induction m with
  | nil => simp [aGet, aSet]
  | cons p t ih =>
      obtain ⟨k', v'⟩ := p
      by_cases h : k' = k
      · simp [aGet, aSet, h]
      · simp [aGet, aSet, h, ih]

theorem aGet_aSet_ne {α : Type} (m : List (Str × α)) (k k' : Str) (v : α)
    (h : k' ≠ k) : aGet (aSet m k v) k' = aGet m k' := by
  induction m with
  | nil =>
      simp only [aSet, aGet]
      rw [if_neg (fun hh => h hh.symm)]
  | cons p t ih =>
      obtain ⟨k0, v0⟩ := p
      by_cases h0 : k0 = k
      · subst h0
        have hne : ¬ (k0 = k') := fun hh => h (hh ▸ rfl)
        simp [aGet, aSet, hne, h]
      · by_cases h1 : k0 = k'
        · simp [aGet, aSet, h0, h1, h]
        · simp [aGet, aSet, h0, h1, ih]

theorem isSome_aGet_aSet {α : Type} (m : List (Str × α)) (k k' : Str) (v : α)
    (h : (aGet m k').isSome = true) :
    (aGet (aSet m k v) k').isSome = true := by
  by_cases hk : k' = k
  · subst hk; simp [aGet_aSet_self]
  · rw [aGet_aSet_ne m k k' v hk]; exact h

theorem aGet_append {α : Type} (m1 m2 : List (Str × α)) (k : Str) :
    aGet (m1 ++ m2) k =
      match aGet m1 k with
      | some v => some v
      | none => aGet m2 k := by
  induction m1 with
  | nil => simp [aGet]
  | cons p t ih =>
      obtain ⟨k0, v0⟩ := p
      by_cases h : k0 = k
      · simp [aGet, h]
      · simp [aGet, h, ih]

theorem aSet_eq_append {α : Type} (m : List (Str × α)) (k : Str) (v : α)
    (h : aGet m k = none) : aSet m k v = m ++ [(k, v)] := by
  induction m with
  | nil => simp [aSet]
  | cons p t ih =>
      obtain ⟨k0, v0⟩ := p
      by_cases h0 : k0 = k
      · simp [aGet, h0] at h
      · simp [aGet, h0] at h
        simp [aSet, h0, ih h]

theorem aGet_map_value {α β : Type} (f : α → β) (m : List (Str × α)) (k : Str) :
    aGet (m.map (fun p => (p.1, f p.2))) k = (aGet m k).map f := by
  induction m with
  | nil => simp [aGet]
  | cons p t ih =>
      obtain ⟨k0, v0⟩ := p
      by_cases h : k0 = k
      · simp [aGet, h]
      · simp [aGet, h, ih]

/-! ### Lemmas: fold-based `min`/`max` -/

theorem le_foldl_max (t : List Int) : ∀ a : Int, a ≤ t.foldl max a := by
  induction t with
  | nil => intro a; simp
  | cons b t ih =>
      intro a
      have h1 : a ≤ max a b := le_max_left a b
      have h2 : max a b ≤ t.foldl max (max a b) := ih (max a b)
      simpa [List.foldl] using le_trans h1 h2

theorem mem_le_foldl_max (t : List Int) :
    ∀ (a x : Int), x ∈ t → x ≤ t.foldl max a := by
  induction t with
  | nil => intro a x hx; cases hx
  | cons b t ih =>
      intro a x hx
      rcases List.mem_cons.mp hx with h | h
      · subst h
        have h1 : x ≤ max a x := le_max_right a x
        have h2 : max a x ≤ t.foldl max (max a x) := le_foldl_max t (max a x)
        simpa [List.foldl] using le_trans h1 h2
      · simpa [List.foldl] using ih (max a b) x h

theorem listMax_mem_le (l : List Int) (x : Int) (h : x ∈ l) : x ≤ listMax l := by
  cases l with
  | nil => cases h
  | cons a t =>
      rcases List.mem_cons.mp h with h0 | h0
      · subst h0; exact le_foldl_max t x
      · exact mem_le_foldl_max t a x h0

theorem foldl_max_map_add (t : List Int) :
    ∀ (a d : Int), (t.map (fun x => x + d)).foldl max (a + d) = t.foldl max a + d := by
  induction t with
  | nil => intro a d; simp
  | cons b t ih =>
      intro a d
      simp only [List.map, List.foldl]
      rw [max_add_add_right a b d, ih (max a b) d]

theorem listMax_map_add (l : List Int) (d : Int) (h : l ≠ []) :
    listMax (l.map (fun x => x + d)) = listMax l + d := by
  cases l with
  | nil => exact absurd rfl h
  | cons a t => simpa [listMax] using foldl_max_map_add t a d

theorem foldl_min_map_add (t : List Int) :
    ∀ (a d : Int), (t.map (fun x => x + d)).foldl min (a + d) = t.foldl min a + d := by
  induction t with
  | nil => intro a d; simp
  | cons b t ih =>
      intro a d
      simp only [List.map, List.foldl]
      rw [min_add_add_right a b d, ih (min a b) d]

theorem listMin_map_add (l : List Int) (d : Int) (h : l ≠ []) :
    listMin (l.map (fun x => x + d)) = listMin l + d := by
  cases l with
  | nil => exact absurd rfl h
  | cons a t => simpa [listMin] using foldl_min_map_add t a d

/-! ### Lemmas: `pyReplace` -/

theorem pyStarts_append_self (p b : Str) : pyStarts (p ++ b) p = true := by
  induction p with
  | nil => simp [pyStarts]
  | cons c t ih => simp [pyStarts, ih]

theorem pyReplaceAux_no_occ (old new : Str) :
    ∀ (fuel : Nat) (s : Str), pyIn old s = false → pyReplaceAux old new s fuel = s := by
  intro fuel
  induction fuel with
  | zero =>
      intro s _
      cases s <;> rfl
  | succ f ih =>
      intro s hs
      cases s with
      | nil => rfl
      | cons c t =>
          simp only [pyIn, Bool.or_eq_false_iff] at hs
          simp [pyReplaceAux, hs.1, ih t hs.2]

/-- `replace(old, '')` on `old ++ rest` with no further occurrence of
`old` in `rest` strips exactly the leading `old`. -/
theorem pyReplace_strip_leading (old rest : Str) (h0 : old ≠ [])
    (h1 : pyIn old rest = false) : pyReplace old [] (old ++ rest) = rest := by
  cases old with
  | nil => exact absurd rfl h0
  | cons o os =>
      have hstart : pyStarts (o :: (os ++ rest)) (o :: os) = true := by
        simpa using pyStarts_append_self (o :: os) rest
      have hdrop : List.drop (o :: os).length (o :: (os ++ rest)) = rest := by
        simpa using List.drop_left (o :: os) rest
      show pyReplaceAux (o :: os) [] (o :: (os ++ rest))
        (o :: (os ++ rest)).length = rest
      rw [List.length_cons]
      simp only [pyReplaceAux, hstart, List.isEmpty_cons, Bool.not_false,
        Bool.and_true, if_true, List.nil_append]
      rw [hdrop]
      exact pyReplaceAux_no_occ (o :: os) [] (os ++ rest).length rest h1

theorem pyReplaceAux_single (o n : Char) :
    ∀ (fuel : Nat) (s : Str), s.length ≤ fuel →
      pyReplaceAux [o] [n] s fuel = s.map (fun c => if c = o then n else c) := by
  intro fuel
  induction fuel with
  | zero =>
      intro s hs
      have : s = [] := List.length_eq_zero.mp (Nat.le_zero.mp hs)
      subst this; rfl
  | succ f ih =>
      intro s hs
      cases s with
      | nil => rfl
      | cons c t =>
          have ht : t.length ≤ f := by simpa [List.length_cons] using hs
          by_cases h : c = o
          · subst h
            simp [pyReplaceAux, pyStarts, ih t ht]
          · simp [pyReplaceAux, pyStarts, h, ih t ht]

/-- `replace('-', '_')` is the character map `dashToUnderscore`. -/
theorem pyReplace_dash (x : Str) :
    pyReplace (str "-") (str "_") x = x.map dashToUnderscore := by
  have h1 : str "-" = ['-'] := rfl
  have h2 : str "_" = ['_'] := rfl
  rw [pyReplace, h1, h2, pyReplaceAux_single '-' '_' x.length x (le_refl _)]
  rfl

end PyGui

namespace PyGui

/-! ### Claim C4: sanitization -/

/-- C4 counterexample: `sanitize("") = ""` starts with neither a letter
nor an underscore, so "sanitize(x) always starts with a letter or
underscore" fails at the empty string. -/
theorem c4_counterexample :
    cleanWidgetId (str "") = str "" ∧
    headAlphaOrUnderscore (cleanWidgetId (str "")) = false := by
  decide

/-- C4 (amended): `clean_widget_id` is idempotent for every string, and
its result starts with a letter or underscore whenever the input is
nonempty (`sanitize("") = ""` has no first character). -/
theorem c4_theorem (x : Str) :
    cleanWidgetId (cleanWidgetId x) = cleanWidgetId x ∧
    (x ≠ [] → headAlphaOrUnderscore (cleanWidgetId x) = true) := by
  have hpoint : ∀ c, dashToUnderscore (dashToUnderscore c) = dashToUnderscore c := by
    intro c
    by_cases h : c = '-' <;> simp [dashToUnderscore, h]
  have hmapidem : ∀ z : Str,
      (z.map dashToUnderscore).map dashToUnderscore = z.map dashToUnderscore := by
    intro z
    rw [List.map_map]
    exact List.map_congr_left (fun a _ => hpoint a)
  have hcw : ∀ z : Str, cleanWidgetId z =
      (if !(z.map dashToUnderscore).isEmpty &&
          !headAlphaOrUnderscore (z.map dashToUnderscore) then
        '_' :: z.map dashToUnderscore
      else z.map dashToUnderscore) := by
    intro z
    simp [cleanWidgetId, pyReplace_dash]
  rcases he : x.map dashToUnderscore with _ | ⟨c, t⟩
  · -- the sanitized body is empty, hence x = []
    have hx : x = [] := List.map_eq_nil_iff.mp he
    subst hx
    constructor
    · rw [hcw, hcw]
      simp
    · intro hne
      exact absurd rfl hne
  · -- nonempty body
    by_cases hhead : headAlphaOrUnderscore (c :: t) = true
    · have h1 : cleanWidgetId x = c :: t := by
        rw [hcw, he]
        simp [hhead]
      have h2 : (c :: t).map dashToUnderscore = c :: t := by
        rw [← he]; exact hmapidem x
      constructor
      · rw [h1, hcw, h2]
        simp [hhead]
      · intro _
        rw [h1]; exact hhead
    · have hfalse : headAlphaOrUnderscore (c :: t) = false :=
        Bool.eq_false_iff.mpr hhead
      have h1 : cleanWidgetId x = '_' :: c :: t := by
        rw [hcw, he]
        simp [hfalse]
      have h2 : (c :: t).map dashToUnderscore = c :: t := by
        rw [← he]; exact hmapidem x
      have h3 : ('_' :: c :: t).map dashToUnderscore = '_' :: c :: t := by
        rw [List.map_cons, h2]
        simp [dashToUnderscore]
      constructor
      · rw [h1, hcw, h3]
        simp [headAlphaOrUnderscore]
      · intro _
        rw [h1]
        simp [headAlphaOrUnderscore]

/-- C4 witness: the amended theorem at `"a-1"`. -/
theorem c4_witness :
    cleanWidgetId (cleanWidgetId (str "a-1")) = cleanWidgetId (str "a-1") ∧
    headAlphaOrUnderscore (cleanWidgetId (str "a-1")) = true :=
  ⟨(c4_theorem (str "a-1")).1, (c4_theorem (str "a-1")).2 (by decide)⟩

/-! ### Claim C8: recovered id versus variable name -/

/-- C8 counterexample: the block `self.button_my_button_1 = ...` has the
leading-prefix-strip `my_button_1`, but the parser recovers `my_1`
because `str.replace` removes every occurrence of `button_`. -/
theorem c8_counterexample :
    (parseCodeToWidgets c8Text).1.map Prod.fst = [str "my_1"] ∧
    str "my_1" ≠ str "my_button_1" := by
  constructor
  · decide
  · decide

/-- C8 (amended): for every widget kind, the recovered id is the variable
name with *every* occurrence of the kind prefix removed; this equals the
leading-prefix-strip exactly when the remainder contains no further
occurrence of the prefix. -/
theorem c8_theorem :
    (∀ wt pl, (parseButtonBlock wt pl).id =
        pyReplace (str "button_") [] (extractVariableName wt)) ∧
    (∀ wt pl, (parseLabelBlock wt pl).id =
        pyReplace (str "label_") [] (extractVariableName wt)) ∧
    (∀ wt pl, (parseEntryBlock wt pl).id =
        pyReplace (str "entry_") [] (extractVariableName wt)) ∧
    (∀ wt pl, (parseCheckboxBlock wt pl).id =
        pyReplace (str "checkbox_") [] (extractVariableName wt)) ∧
    (∀ wt pl, (parseComboboxBlock wt pl).id =
        pyReplace (str "combobox_") [] (extractVariableName wt)) ∧
    (∀ wt pl, (parseSliderBlock wt pl).id =
        pyReplace (str "slider_") [] (extractVariableName wt)) ∧
    (∀ wt pl, (parseProgressbarBlock wt pl).id =
        pyReplace (str "progressbar_") [] (extractVariableName wt)) ∧
    (∀ old rest : Str, old ≠ [] → pyIn old rest = false →
        pyReplace old [] (old ++ rest) = rest) := by
  refine ⟨?_, ?_, ?_, ?_, ?_, ?_, ?_, pyReplace_strip_leading⟩ <;>
    (intro wt pl; rfl)

/-- C8 witness: the amended theorem at the variable name `button_q`. -/
theorem c8_witness :
    (parseButtonBlock (str "self.button_q = ctk.CTkButton( self )") none).id =
      pyReplace (str "button_") [] (extractVariableName
        (str "self.button_q = ctk.CTkButton( self )")) ∧
    pyReplace (str "button_") [] (str "button_" ++ str "q") = str "q" :=
  ⟨c8_theorem.1 (str "self.button_q = ctk.CTkButton( self )") none,
   c8_theorem.2.2.2.2.2.2.2 (str "button_") (str "q") (by decide) (by decide)⟩

/-! ### Claim C3: auto-fit effective window size -/

/-- C3 (confirmed): with `autoFit` and a nonempty widget map, the
effective size used by generation is `max(configured, extent + 50)` in
each dimension, which bounds every widget's extent plus the margin; in
Scenario B (800×600 configured, one widget at (900, 900, 100, 100)) the
effective size is at least (1050, 1050), and the generated text carries
the effective geometry. -/
theorem c3_theorem (widgets : List (Str × WidgetData)) (wp : WindowProperties)
    (hne : widgets ≠ []) (hfit : wp.auto_fit = true) :
    effectiveWindowSize widgets wp =
      (max wp.width (listMax (widgets.map (fun p => p.2.x + p.2.width)) + 50),
       max wp.height (listMax (widgets.map (fun p => p.2.y + p.2.height)) + 50)) ∧
    (∀ p ∈ widgets,
      p.2.x + p.2.width + 50 ≤ (effectiveWindowSize widgets wp).1 ∧
      p.2.y + p.2.height + 50 ≤ (effectiveWindowSize widgets wp).2) ∧
    (1050 ≤ (effectiveWindowSize scenarioBDoc defaultWindowProperties).1 ∧
     1050 ≤ (effectiveWindowSize scenarioBDoc defaultWindowProperties).2 ∧
     pyIn (str "self.geometry('1050x1050')")
       (generateCode scenarioBDoc defaultWindowProperties) = true) := by
  have hempty : widgets.isEmpty = false := by
    cases widgets with
    | nil => exact absurd rfl hne
    | cons p t => rfl
  have heq : effectiveWindowSize widgets wp =
      (max wp.width (listMax (widgets.map (fun p => p.2.x + p.2.width)) + 50),
       max wp.height (listMax (widgets.map (fun p => p.2.y + p.2.height)) + 50)) := by
    simp [effectiveWindowSize, hfit, hempty]
  refine ⟨heq, ?_, ?_⟩
  · intro p hp
    have hx : p.2.x + p.2.width ≤
        listMax (widgets.map (fun p => p.2.x + p.2.width)) :=
      listMax_mem_le _ _ (List.mem_map_of_mem _ hp)
    have hy : p.2.y + p.2.height ≤
        listMax (widgets.map (fun p => p.2.y + p.2.height)) :=
      listMax_mem_le _ _ (List.mem_map_of_mem _ hp)
    have hmx : listMax (widgets.map (fun p => p.2.x + p.2.width)) + 50 ≤
        max wp.width (listMax (widgets.map (fun p => p.2.x + p.2.width)) + 50) :=
      le_max_right _ _
    have hmy : listMax (widgets.map (fun p => p.2.y + p.2.height)) + 50 ≤
        max wp.height (listMax (widgets.map (fun p => p.2.y + p.2.height)) + 50) :=
      le_max_right _ _
    rw [heq]
    constructor
    · simp only []
      omega
    · simp only []
      omega
  · refine ⟨by decide, by decide, by decide⟩

/-- C3 witness: the theorem at Scenario B. -/
theorem c3_witness :
    effectiveWindowSize scenarioBDoc defaultWindowProperties =
      (max 800 (listMax (scenarioBDoc.map (fun p => p.2.x + p.2.width)) + 50),
       max 600 (listMax (scenarioBDoc.map (fun p => p.2.y + p.2.height)) + 50)) ∧
    1050 ≤ (effectiveWindowSize scenarioBDoc defaultWindowProperties).1 :=
  ⟨(c3_theorem scenarioBDoc defaultWindowProperties (by decide) rfl).1,
   (c3_theorem scenarioBDoc defaultWindowProperties (by decide) rfl).2.2.1⟩

end PyGui

namespace PyGui

/-! ### Claim C1: near round-trip on generated text -/

/-- C1: at the Scenario A document with the default window properties the
generator emits the sanitized variable `button_a_1` placed at (50, 50) as
claimed, but parsing that very text returns the *empty* widget map: the
emitted `center_window` boilerplate contains the literal line
`self.geometry(f'{width}x{height}+{x}+{y}')`, whose extracted quote
content splits on `x` into three parts, the two-name unpacking raises
`ValueError`, and the parser's catch-all discards everything (moreover
the widget constructors are emitted after the nested `center_window`
header, so the scanner has already left `setup_ui`). -/
theorem c1_theorem :
    pyIn (str "self.button_a_1 = ctk.CTkButton(") scenarioAGenerated = true ∧
    pyIn (str "self.button_a_1.place(x=50, y=50)") scenarioAGenerated = true ∧
    (parseCodeToWidgets scenarioAGenerated).1 = [] := by
  refine ⟨by decide, by decide, by decide⟩

/-! ### Claim C2: parser failure containment -/

/-- C2 counterexample: the widget block of `c2Good` is recognized, yet
appending one malformed geometry line (`c2Bad`) makes the parse return
the empty widget map — the partial result recognized before the failure
is *not* yielded, and the failing input is ordinary text, not unreadable
input. -/
theorem c2_counterexample :
    (parseCodeToWidgets c2Good).1 ≠ [] ∧
    (parseCodeToWidgets c2Bad).1 = [] := by
  refine ⟨by decide, by decide⟩

/-- C2 (amended): the parser always returns a pair (it never raises
outward), and a failure inside one widget block never aborts the scan;
but an exception anywhere else in the scan (here the `'1x2x3'` geometry
string) falls back to the *empty* widget map, discarding every widget
recognized before the failure — only the window properties recognized so
far (the title `'My App'`) survive. -/
theorem c2_theorem :
    parseCodeToWidgets c2Bad =
      ([], { initParsedWindowProps with title := str "My App" }) ∧
    parseCodeToWidgets c2Good =
      ([(str "b", c2Widget)], { initParsedWindowProps with title := str "My App" }) := by
  refine ⟨by decide, by decide⟩

end PyGui

namespace PyGui

/-! ### Lemmas: history operations -/

theorem restoreState_stacks (st : CanvasState) (s : Snapshot) :
    (restoreState st s).undo_stack = st.undo_stack ∧
    (restoreState st s).redo_stack = st.redo_stack ∧
    (restoreState st s).groups = st.groups := by
  cases hsel : s.selected_widget_id with
  | none => simp [restoreState, hsel, deselectAll]
  | some wid =>
      simp only [restoreState, hsel, selectWidget, deselectAll]
      split <;> simp

theorem onUndo_stacks (st : CanvasState) (s : Snapshot)
    (hu : st.undo_stack.getLast? = some s) :
    (onUndo st).undo_stack = st.undo_stack.dropLast ∧
    (onUndo st).redo_stack = st.redo_stack ++ [snapshotOf st] ∧
    (onUndo st).groups = st.groups := by
  have hframe := restoreState_stacks
    { saveStateToRedo st with
      undo_stack := (saveStateToRedo st).undo_stack.dropLast } s
  simp only [onUndo, hu]
  exact ⟨hframe.1.trans rfl, hframe.2.1.trans rfl, hframe.2.2.trans rfl⟩

theorem onRedo_stacks (st : CanvasState) (s : Snapshot)
    (hr : st.redo_stack.getLast? = some s) :
    (onRedo st).undo_stack = st.undo_stack ++ [snapshotOf st] ∧
    (onRedo st).redo_stack = st.redo_stack.dropLast ∧
    (onRedo st).groups = st.groups := by
  have hframe := restoreState_stacks
    { saveStateToUndo st with
      redo_stack := (saveStateToUndo st).redo_stack.dropLast } s
  simp only [onRedo, hr]
  exact ⟨hframe.1.trans rfl, hframe.2.1.trans rfl, hframe.2.2.trans rfl⟩

theorem histSize_applyHistOp (st : CanvasState) (op : HistOp)
    (h : histSize st ≤ maxUndoSteps) :
    histSize (applyHistOp st op) ≤ maxUndoSteps := by
  have h' : st.undo_stack.length + st.redo_stack.length ≤ 50 := h
  cases op with
  | save =>
      show histSize (saveState st) ≤ maxUndoSteps
      show (saveState st).undo_stack.length + (saveState st).redo_stack.length ≤ 50
      by_cases hb : st.undo_stack.length ≥ maxUndoSteps
      · have e1 : (saveState st).undo_stack =
            st.undo_stack.drop 1 ++ [snapshotOf st] := by
          simp [saveState, hb]
        have e2 : (saveState st).redo_stack = [] := rfl
        rw [e1, e2]
        simp only [List.length_append, List.length_drop, List.length_cons,
          List.length_nil]
        have hb' : 50 ≤ st.undo_stack.length := hb
        omega
      · have e1 : (saveState st).undo_stack =
            st.undo_stack ++ [snapshotOf st] := by
          simp [saveState, hb]
        have e2 : (saveState st).redo_stack = [] := rfl
        rw [e1, e2]
        simp only [List.length_append, List.length_cons, List.length_nil]
        have hb' : ¬ 50 ≤ st.undo_stack.length := hb
        omega
  | undo =>
      cases hu : st.undo_stack.getLast? with
      | none =>
          have : applyHistOp st HistOp.undo = st := by simp [applyHistOp, onUndo, hu]
          rw [this]; exact h
      | some s =>
          have hne : st.undo_stack ≠ [] := by
            intro hh
            rw [hh] at hu
            simp at hu
          have hlen : 1 ≤ st.undo_stack.length := by
            cases hl : st.undo_stack with
            | nil => exact absurd hl hne
            | cons a t => simp
          have hs := onUndo_stacks st s hu
          show histSize (onUndo st) ≤ maxUndoSteps
          show (onUndo st).undo_stack.length + (onUndo st).redo_stack.length ≤ 50
          rw [hs.1, hs.2.1]
          simp only [List.length_dropLast, List.length_append, List.length_cons,
            List.length_nil]
          omega
  | redo =>
      cases hr : st.redo_stack.getLast? with
      | none =>
          have : applyHistOp st HistOp.redo = st := by simp [applyHistOp, onRedo, hr]
          rw [this]; exact h
      | some s =>
          have hne : st.redo_stack ≠ [] := by
            intro hh
            rw [hh] at hr
            simp at hr
          have hlen : 1 ≤ st.redo_stack.length := by
            cases hl : st.redo_stack with
            | nil => exact absurd hl hne
            | cons a t => simp
          have hs := onRedo_stacks st s hr
          show histSize (onRedo st) ≤ maxUndoSteps
          show (onRedo st).undo_stack.length + (onRedo st).redo_stack.length ≤ 50
          rw [hs.1, hs.2.1]
          simp only [List.length_dropLast, List.length_append, List.length_cons,
            List.length_nil]
          omega
  | edit w sel =>
      show ({ st with widgets := w, selected_widget_id := sel } :
        CanvasState).undo_stack.length + _ ≤ _
      exact h'

/-! ### Claim C10: undo/redo never touch the groups map -/

/-- C10 (confirmed): `on_undo` and `on_redo` rebuild only the widget map
and the selection; the groups dictionary is untouched, even when the
restore removes widgets its members reference. -/
theorem c10_theorem (st : CanvasState) :
    (onUndo st).groups = st.groups ∧ (onRedo st).groups = st.groups := by
  constructor
  · cases hu : st.undo_stack.getLast? with
    | none => simp [onUndo, hu]
    | some s => exact (onUndo_stacks st s hu).2.2
  · cases hr : st.redo_stack.getLast? with
    | none => simp [onRedo, hr]
    | some s => exact (onRedo_stacks st s hr).2.2

/-! ### Claim C6: bounded undo stack -/

/-- C6 (confirmed): under any interleaving of snapshot, undo, redo and
model edits from the initial state, the undo stack never exceeds
`max_undo_steps = 50`; and after Scenario D's 51 snapshot-producing
edits the stack holds exactly 50 snapshots and the snapshot preceding
the first edit (`⟨[], none⟩`) is no longer on it. -/
theorem c6_theorem :
    (∀ ops : List HistOp,
      (applyHistOps initCanvas ops).undo_stack.length ≤ maxUndoSteps) ∧
    (applyHistOps initCanvas scenarioDOps).undo_stack.length = 50 ∧
    Snapshot.mk [] none ∉ (applyHistOps initCanvas scenarioDOps).undo_stack := by
  have key : ∀ (ops : List HistOp) (st : CanvasState),
      histSize st ≤ maxUndoSteps →
      histSize (applyHistOps st ops) ≤ maxUndoSteps := by
    intro ops
    induction ops with
    | nil =>
        intro st h
        simpa [applyHistOps] using h
    | cons op t ih =>
        intro st h
        have hstep : applyHistOps st (op :: t) =
            applyHistOps (applyHistOp st op) t := rfl
        rw [hstep]
        exact ih _ (histSize_applyHistOp st op h)
  refine ⟨?_, by decide, by decide⟩
  intro ops
  have h0 : histSize initCanvas ≤ maxUndoSteps := by decide
  have h1 := key ops initCanvas h0
  have h2 : (applyHistOps initCanvas ops).undo_stack.length ≤
      histSize (applyHistOps initCanvas ops) := Nat.le_add_right _ _
  exact le_trans h2 h1

end PyGui

namespace PyGui

/-! ### Lemmas: `restore_state` on a snapshot of a well-keyed state -/

theorem widgetOfDict_toDict (w : WidgetData) :
    widgetOfDict (WidgetData.toDict w) = stripGroupLayer w := rfl

theorem rebuild_fold :
    ∀ (l acc : List (Str × WidgetData)),
      (∀ p ∈ l, p.2.id = p.1) → (l.map Prod.fst).Nodup →
      (∀ p ∈ l, aGet acc p.1 = none) →
      (l.map (fun p => (p.1, p.2.toDict))).foldl
          (fun m p => aSet m (widgetOfDict p.2).id (widgetOfDict p.2)) acc
        = acc ++ l.map (fun p => (p.1, stripGroupLayer p.2)) := by
  intro l
  induction l with
  | nil =>
      intro acc _ _ _
      simp
  | cons p t ih =>
      obtain ⟨k, w⟩ := p
      intro acc hids hnd hfresh
      have hk : w.id = k := hids (k, w) (List.mem_cons_self _ _)
      have hSid : (stripGroupLayer w).id = k := hk
      simp only [List.map_cons, List.foldl_cons, widgetOfDict_toDict, hSid]
      have hset : aSet acc k (stripGroupLayer w) = acc ++ [(k, stripGroupLayer w)] :=
        aSet_eq_append acc k _ (hfresh (k, w) (List.mem_cons_self _ _))
      rw [hset]
      have hfresh' : ∀ q ∈ t, aGet (acc ++ [(k, stripGroupLayer w)]) q.1 = none := by
        intro q hq
        have hkq : k ≠ q.1 := by
          intro hh
          have hmem : q.1 ∈ t.map Prod.fst := List.mem_map_of_mem _ hq
          rw [← hh] at hmem
          exact (List.nodup_cons.mp hnd).1 hmem
        simp [aGet_append, hfresh q (List.mem_cons_of_mem _ hq), aGet, hkq]
      have ih' := ih (acc ++ [(k, stripGroupLayer w)])
        (fun q hq => hids q (List.mem_cons_of_mem _ hq))
        (List.nodup_cons.mp hnd).2 hfresh'
      rw [ih']
      simp

theorem restore_snapshot (stx st0 : CanvasState)
    (h1 : ∀ p ∈ st0.widgets, p.2.id = p.1)
    (h2 : (st0.widgets.map Prod.fst).Nodup)
    (h3 : selValid st0 = true) :
    (restoreState stx (snapshotOf st0)).widgets =
      st0.widgets.map (fun p => (p.1, stripGroupLayer p.2)) ∧
    (restoreState stx (snapshotOf st0)).selected_widget_id =
      st0.selected_widget_id := by
  have hreb : ((snapshotOf st0).widgets).foldl
      (fun m p => aSet m (widgetOfDict p.2).id (widgetOfDict p.2)) []
      = st0.widgets.map (fun p => (p.1, stripGroupLayer p.2)) := by
    have hsw : (snapshotOf st0).widgets =
        st0.widgets.map (fun p => (p.1, p.2.toDict)) := rfl
    rw [hsw]
    simpa using rebuild_fold st0.widgets [] h1 h2 (fun p _ => rfl)
  cases hsel : st0.selected_widget_id with
  | none =>
      have hsel' : (snapshotOf st0).selected_widget_id = none := by
        simp [snapshotOf, hsel]
      constructor
      · simp only [restoreState, hsel', deselectAll]
        exact hreb
      · simp [restoreState, hsel', deselectAll]
  | some wid =>
      have hsel' : (snapshotOf st0).selected_widget_id = some wid := by
        simp [snapshotOf, hsel]
      have hv : (!wid.isEmpty && (aGet st0.widgets wid).isSome) = true := by
        have h3' := h3
        simp only [selValid, hsel] at h3'
        exact h3'
      have hv2 := hv
      simp only [Bool.and_eq_true, Bool.not_eq_true'] at hv2
      have hvE : wid.isEmpty = false := hv2.1
      have hvS : (aGet st0.widgets wid).isSome = true := hv2.2
      have hsomeStrip :
          (aGet (st0.widgets.map (fun p => (p.1, stripGroupLayer p.2))) wid).isSome
            = true := by
        rw [aGet_map_value stripGroupLayer st0.widgets wid]
        cases haGet : aGet st0.widgets wid with
        | none => rw [haGet] at hvS; simp at hvS
        | some w => simp
      have hcond : (!wid.isEmpty &&
          (aGet (st0.widgets.map (fun p => (p.1, stripGroupLayer p.2))) wid).isSome)
            = true := by
        rw [hvE, hsomeStrip]
        rfl
      constructor
      · simp only [restoreState, hsel', selectWidget, deselectAll]
        rw [hreb, hcond]
        simp
      · simp only [restoreState, hsel', selectWidget, deselectAll]
        rw [hreb, hcond]
        simp

/-! ### Claim C5: undo/redo symmetry -/

/-- C5 counterexample: a state whose widget sits on layer 5; `redo` then
`undo` rebuilds the widget with `layer = 0` (and `group_id = None`), so
the prior Document state is not restored bit-for-bit. -/
theorem c5_counterexample :
    (onUndo (onRedo stLayer)).widgets ≠ stLayer.widgets := by
  decide

/-- C5 (amended): when the adjacent stack is nonempty and the state is
well-keyed with a valid selection, `undo` right after `redo` (and `redo`
right after `undo`) restores the widget map *up to* `group_id` and
`layer` — which `restore_state` resets to the dataclass defaults — and
restores the single-selection id exactly. -/
theorem c5_theorem (st : CanvasState) :
    (st.redo_stack ≠ [] → (∀ p ∈ st.widgets, p.2.id = p.1) →
      (st.widgets.map Prod.fst).Nodup → selValid st = true →
      (onUndo (onRedo st)).widgets =
        st.widgets.map (fun p => (p.1, stripGroupLayer p.2)) ∧
      (onUndo (onRedo st)).selected_widget_id = st.selected_widget_id) ∧
    (st.undo_stack ≠ [] → (∀ p ∈ st.widgets, p.2.id = p.1) →
      (st.widgets.map Prod.fst).Nodup → selValid st = true →
      (onRedo (onUndo st)).widgets =
        st.widgets.map (fun p => (p.1, stripGroupLayer p.2)) ∧
      (onRedo (onUndo st)).selected_widget_id = st.selected_widget_id) := by
  constructor
  · intro hne h1 h2 h3
    have hsome : st.redo_stack.getLast?.isSome = true := by
      cases hl : st.redo_stack with
      | nil => exact absurd hl hne
      | cons a t => simp [List.getLast?_isSome]
    obtain ⟨s', hs'⟩ := Option.isSome_iff_exists.mp hsome
    have hmidundo : (onRedo st).undo_stack = st.undo_stack ++ [snapshotOf st] :=
      (onRedo_stacks st s' hs').1
    have hlast : (onRedo st).undo_stack.getLast? = some (snapshotOf st) := by
      rw [hmidundo]
      exact List.getLast?_concat _
    have hexp : onUndo (onRedo st) = restoreState
        { saveStateToRedo (onRedo st) with
          undo_stack := (saveStateToRedo (onRedo st)).undo_stack.dropLast }
        (snapshotOf st) := by
      simp [onUndo, hlast]
    rw [hexp]
    exact restore_snapshot _ st h1 h2 h3
  · intro hne h1 h2 h3
    have hsome : st.undo_stack.getLast?.isSome = true := by
      cases hl : st.undo_stack with
      | nil => exact absurd hl hne
      | cons a t => simp [List.getLast?_isSome]
    obtain ⟨s', hs'⟩ := Option.isSome_iff_exists.mp hsome
    have hmidredo : (onUndo st).redo_stack = st.redo_stack ++ [snapshotOf st] :=
      (onUndo_stacks st s' hs').2.1
    have hlast : (onUndo st).redo_stack.getLast? = some (snapshotOf st) := by
      rw [hmidredo]
      exact List.getLast?_concat _
    have hexp : onRedo (onUndo st) = restoreState
        { saveStateToUndo (onUndo st) with
          redo_stack := (saveStateToUndo (onUndo st)).redo_stack.dropLast }
        (snapshotOf st) := by
      simp [onRedo, hlast]
    rw [hexp]
    exact restore_snapshot _ st h1 h2 h3

/-- C5 witness: the amended theorem at a concrete two-stack state. -/
theorem c5_witness :
    (onUndo (onRedo stBoth)).widgets =
      stBoth.widgets.map (fun p => (p.1, stripGroupLayer p.2)) ∧
    (onUndo (onRedo stBoth)).selected_widget_id = stBoth.selected_widget_id :=
  (c5_theorem stBoth).1 (by decide) (by decide) (by decide) (by decide)

end PyGui

namespace PyGui

/-! ### Lemmas: group operations -/

theorem updateGroupBounds_widgets (st : CanvasState) (gid : Str) :
    (updateGroupBounds st gid).widgets = st.widgets := by
  unfold updateGroupBounds
  split
  · rfl
  · split
    · rfl
    · split
      · rfl
      · rfl

theorem updateGroupBounds_group_isSome (st : CanvasState) (gid k : Str) :
    (aGet (updateGroupBounds st gid).groups k).isSome =
      (aGet st.groups k).isSome := by
  unfold updateGroupBounds
  split
  · rfl
  · rename_i g hg
    split
    · rfl
    · split
      · rfl
      · rename_i w ws hm
        simp only []
        by_cases hk : k = gid
        · subst hk
          rw [aGet_aSet_self, hg]
          rfl
        · rw [aGet_aSet_ne st.groups gid k _ hk]

/-- After `update_group_bounds` on a group with at least one live member,
the bounding-box invariant holds. -/
theorem groupBoundsInv_updateGroupBounds (st : CanvasState) (gid : Str)
    (g : WidgetGroup) (hg : aGet st.groups gid = some g)
    (hne : memberRects st g ≠ []) :
    groupBoundsInv (updateGroupBounds st gid) gid = true := by
  have hids : g.widget_ids.isEmpty = false := by
    cases hl : g.widget_ids with
    | nil =>
        exfalso
        apply hne
        simp [memberRects, hl]
    | cons a t => rfl
  cases hm : memberRects st g with
  | nil => exact absurd hm hne
  | cons w ws =>
      have hupd : updateGroupBounds st gid =
          { st with groups := aSet st.groups gid (unionGroup g (w :: ws)) } := by
        simp [updateGroupBounds, hg, hids, hm]
      rw [hupd]
      have hgg := aGet_aSet_self st.groups gid (unionGroup g (w :: ws))
      have hmr : memberRects
          { st with groups := aSet st.groups gid (unionGroup g (w :: ws)) }
          (unionGroup g (w :: ws)) = w :: ws := by
        simpa [memberRects, unionGroup] using hm
      simp only [groupBoundsInv, hgg, hmr]
      simp only [unionGroup, Bool.and_eq_true, decide_eq_true_eq]
      and_intros <;> first | trivial | omega

end PyGui

namespace PyGui

theorem eraseGroupMember_widgets (st : CanvasState) (a b : Str) :
    (eraseGroupMember st a b).widgets = st.widgets := by
  unfold eraseGroupMember
  split
  · split <;> rfl
  · rfl

theorem eraseGroupMember_group_isSome (st : CanvasState) (a b k : Str) :
    (aGet (eraseGroupMember st a b).groups k).isSome =
      (aGet st.groups k).isSome := by
  unfold eraseGroupMember
  split
  · rename_i g hg
    split
    · by_cases hk : k = b
      · subst hk
        rw [aGet_aSet_self, hg]
        rfl
      · rw [aGet_aSet_ne st.groups b k _ hk]
    · rfl
  · rfl

theorem eraseGroupMember_group_at (st : CanvasState) (a b : Str) :
    aGet (eraseGroupMember st a b).groups b =
      (aGet st.groups b).map
        (fun g => if a ∈ g.widget_ids then
            { g with widget_ids := g.widget_ids.erase a }
          else g) := by
  unfold eraseGroupMember
  cases hg : aGet st.groups b with
  | none => simp [hg]
  | some g =>
      by_cases hm : a ∈ g.widget_ids
      · simp only [hg, hm, if_true, Option.map_some]
        rw [aGet_aSet_self]
        simp [hm]
      · simp [hg, hm]

theorem clearWidgetGroupId_groups (st : CanvasState) (a : Str) :
    (clearWidgetGroupId st a).groups = st.groups := by
  unfold clearWidgetGroupId
  split <;> rfl

theorem clearWidgetGroupId_widget_isSome (st : CanvasState) (a k : Str) :
    (aGet (clearWidgetGroupId st a).widgets k).isSome =
      (aGet st.widgets k).isSome := by
  unfold clearWidgetGroupId
  split
  · rename_i w hw
    by_cases hk : k = a
    · subst hk
      rw [aGet_aSet_self, hw]
      rfl
    · rw [aGet_aSet_ne st.widgets a k _ hk]
  · rfl

theorem setWidgetGroupId_groups (st : CanvasState) (a b : Str) :
    (setWidgetGroupId st a b).groups = st.groups := by
  unfold setWidgetGroupId
  split <;> rfl

theorem setWidgetGroupId_widget_isSome (st : CanvasState) (a b k : Str) :
    (aGet (setWidgetGroupId st a b).widgets k).isSome =
      (aGet st.widgets k).isSome := by
  unfold setWidgetGroupId
  split
  · rename_i w hw
    by_cases hk : k = a
    · subst hk
      rw [aGet_aSet_self, hw]
      rfl
    · rw [aGet_aSet_ne st.widgets a k _ hk]
  · rfl

theorem appendGroupMember_widgets (st : CanvasState) (a b : Str) :
    (appendGroupMember st a b).widgets = st.widgets := by
  unfold appendGroupMember
  split <;> rfl

theorem appendGroupMember_group_at (st : CanvasState) (a b : Str) :
    aGet (appendGroupMember st a b).groups b =
      (aGet st.groups b).map
        (fun g => { g with widget_ids := g.widget_ids ++ [a] }) := by
  unfold appendGroupMember
  cases hg : aGet st.groups b with
  | none => simp [hg]
  | some g =>
      simp only [hg]
      rw [aGet_aSet_self]
      simp

theorem removeFromGroup_widget_isSome (st : CanvasState) (a b k : Str) :
    (aGet (removeFromGroup st a b).widgets k).isSome =
      (aGet st.widgets k).isSome := by
  unfold removeFromGroup
  split
  · rfl
  · rw [updateGroupBounds_widgets, clearWidgetGroupId_widget_isSome,
      eraseGroupMember_widgets]

theorem removeFromGroup_group_isSome (st : CanvasState) (a b k : Str) :
    (aGet (removeFromGroup st a b).groups k).isSome =
      (aGet st.groups k).isSome := by
  unfold removeFromGroup
  split
  · rfl
  · rw [updateGroupBounds_group_isSome, clearWidgetGroupId_groups,
      eraseGroupMember_group_isSome]

theorem filterMap_aGet_ne_nil {α : Type} (ids : List Str)
    (m : List (Str × α)) (i : Str) (hi : i ∈ ids)
    (hv : (aGet m i).isSome = true) :
    ids.filterMap (fun j => aGet m j) ≠ [] := by
  intro hnil
  have h := List.filterMap_eq_nil_iff.mp hnil i hi
  rw [h] at hv
  simp at hv

theorem translateWidgets_isSome (dx dy : Int) :
    ∀ (ids : List Str) (m : List (Str × WidgetData)) (k : Str),
      (aGet (translateWidgets m ids dx dy) k).isSome =
        (aGet m k).isSome := by
  intro ids
  induction ids with
  | nil => intro m k; rfl
  | cons i t ih =>
      intro m k
      show (aGet (translateWidgets
        (match aGet m i with
         | some w => aSet m i { w with x := w.x + dx, y := w.y + dy }
         | none => m) t dx dy) k).isSome = (aGet m k).isSome
      rw [ih]
      cases hw : aGet m i with
      | none => rfl
      | some w =>
          by_cases hk : k = i
          · subst hk
            rw [aGet_aSet_self, hw]
            rfl
          · rw [aGet_aSet_ne m i k _ hk]

theorem translateWidgets_aGet (dx dy : Int) :
    ∀ (ids : List Str) (m : List (Str × WidgetData)) (k : Str), ids.Nodup →
      aGet (translateWidgets m ids dx dy) k =
        (if k ∈ ids then
          (aGet m k).map (fun w => { w with x := w.x + dx, y := w.y + dy })
        else aGet m k) := by
  intro ids
  induction ids with
  | nil =>
      intro m k _
      simp [translateWidgets]
  | cons i t ih =>
      intro m k hnd
      have hstep : translateWidgets m (i :: t) dx dy = translateWidgets
          (match aGet m i with
           | some w => aSet m i { w with x := w.x + dx, y := w.y + dy }
           | none => m) t dx dy := rfl
      rw [hstep, ih _ k (List.nodup_cons.mp hnd).2]
      by_cases hk : k = i
      · subst hk
        have hkt : k ∉ t := (List.nodup_cons.mp hnd).1
        simp only [hkt, if_false, List.mem_cons, true_or, if_true]
        cases hw : aGet m k with
        | none => exact hw
        | some w => exact aGet_aSet_self m k _
      · simp only [List.mem_cons, hk, false_or]
        have hsame :
            aGet (match aGet m i with
              | some w => aSet m i { w with x := w.x + dx, y := w.y + dy }
              | none => m) k = aGet m k := by
          cases hw : aGet m i with
          | none => rfl
          | some w => rw [aGet_aSet_ne m i k _ hk]
        simp only [hsame]

end PyGui

namespace PyGui

/-! ### Claim C7: group bounding-box invariant -/

theorem groupBoundsInv_attachToGroup (st : CanvasState) (wid gid : Str)
    (hw : (aGet st.widgets wid).isSome = true)
    (hg : (aGet st.groups gid).isSome = true) :
    groupBoundsInv (attachToGroup st wid gid) gid = true := by
  obtain ⟨g1, hg1⟩ : ∃ g1, aGet (setWidgetGroupId st wid gid).groups gid = some g1 := by
    rw [setWidgetGroupId_groups]
    exact Option.isSome_iff_exists.mp hg
  have hg2 : aGet (appendGroupMember (setWidgetGroupId st wid gid) wid gid).groups gid
      = some { g1 with widget_ids := g1.widget_ids ++ [wid] } := by
    rw [appendGroupMember_group_at, hg1]
    rfl
  have hw2 : (aGet (appendGroupMember (setWidgetGroupId st wid gid) wid gid).widgets
      wid).isSome = true := by
    rw [appendGroupMember_widgets, setWidgetGroupId_widget_isSome]
    exact hw
  unfold attachToGroup
  apply groupBoundsInv_updateGroupBounds _ gid _ hg2
  exact filterMap_aGet_ne_nil _ _ wid (by simp) hw2

/-- C7 counterexample: on a group whose bounds equal the member union,
`resize_group` to 25×25 leaves the invariant false — member sizes are
floored at 20, so the union (35 wide) exceeds the recorded size (25). -/
theorem c7_counterexample :
    groupBoundsInv stGroup (str "g") = true ∧
    groupBoundsInv (resizeGroup stGroup (str "g") 25 25) (str "g") = false := by
  refine ⟨by decide, by decide⟩

/-- C7 (amended): the bounding box equals the member union after
`move_group`, `add_to_group` and `remove_from_group` (each ends in
`update_group_bounds`), under liveness of the members involved; but
`resize_group` merely sets the group size to the requested values without
recomputing the union. -/
theorem c7_theorem :
    (∀ (st : CanvasState) (gid : Str) (g : WidgetGroup) (dx dy : Int),
      aGet st.groups gid = some g → memberRects st g ≠ [] →
      groupBoundsInv (moveGroup st gid dx dy) gid = true) ∧
    (∀ (st : CanvasState) (wid gid : Str),
      (aGet st.widgets wid).isSome = true →
      (aGet st.groups gid).isSome = true →
      groupBoundsInv (addToGroup st wid gid) gid = true) ∧
    (∀ (st : CanvasState) (wid gid : Str) (g : WidgetGroup),
      (aGet st.widgets wid).isSome = true →
      aGet st.groups gid = some g →
      (g.widget_ids.erase wid).filterMap (fun j => aGet st.widgets j) ≠ [] →
      groupBoundsInv (removeFromGroup st wid gid) gid = true) ∧
    (∀ (st : CanvasState) (gid : Str) (g : WidgetGroup) (w h : Int),
      aGet st.groups gid = some g →
      aGet (resizeGroup st gid w h).groups gid =
        some { g with width := w, height := h }) := by
  refine ⟨?_, ?_, ?_, ?_⟩
  · -- move_group
    intro st gid g dx dy hg hne
    have hexp : moveGroup st gid dx dy = updateGroupBounds
        { st with widgets := translateWidgets st.widgets g.widget_ids dx dy }
        gid := by
      simp [moveGroup, hg]
    rw [hexp]
    apply groupBoundsInv_updateGroupBounds
      { st with widgets := translateWidgets st.widgets g.widget_ids dx dy }
      gid g hg
    obtain ⟨i, hi, hv⟩ : ∃ i ∈ g.widget_ids, (aGet st.widgets i).isSome = true := by
      by_contra hcon
      apply hne
      rw [show memberRects st g =
        g.widget_ids.filterMap (fun j => aGet st.widgets j) from rfl]
      rw [List.filterMap_eq_nil_iff]
      intro i hi
      cases haGet : aGet st.widgets i with
      | none => rfl
      | some w =>
          exact absurd ⟨i, hi, by rw [haGet]; rfl⟩ hcon
    have hv2 : (aGet (translateWidgets st.widgets g.widget_ids dx dy) i).isSome
        = true := by
      rw [translateWidgets_isSome dx dy g.widget_ids st.widgets i]
      exact hv
    exact filterMap_aGet_ne_nil _ _ i hi hv2
  · -- add_to_group
    intro st wid gid hw hg
    have hguard : (!(aMem st.widgets wid) || !(aMem st.groups gid)) = false := by
      simp [aMem, hw, hg]
    obtain ⟨w, hww⟩ := Option.isSome_iff_exists.mp hw
    unfold addToGroup
    simp only [hguard, Bool.false_eq_true, if_false, hww]
    by_cases htr : optTruthy w.group_id = true
    · simp only [htr, if_true]
      apply groupBoundsInv_attachToGroup
      · rw [removeFromGroup_widget_isSome]
        exact hw
      · rw [removeFromGroup_group_isSome]
        exact hg
    · simp only [Bool.not_eq_true] at htr
      simp only [htr, Bool.false_eq_true, if_false]
      exact groupBoundsInv_attachToGroup st wid gid hw hg
  · -- remove_from_group
    intro st wid gid g hw hg hne
    have hguard : (!(aMem st.widgets wid) || !(aMem st.groups gid)) = false := by
      simp [aMem, hw, hg]
    unfold removeFromGroup
    simp only [hguard, Bool.false_eq_true, if_false]
    -- the group after the member-list erase
    have hgE : aGet (eraseGroupMember st wid gid).groups gid =
        some (if wid ∈ g.widget_ids then
          { g with widget_ids := g.widget_ids.erase wid } else g) := by
      rw [eraseGroupMember_group_at, hg]
      rfl
    have hgC : aGet (clearWidgetGroupId (eraseGroupMember st wid gid) wid).groups gid =
        some (if wid ∈ g.widget_ids then
          { g with widget_ids := g.widget_ids.erase wid } else g) := by
      rw [clearWidgetGroupId_groups]
      exact hgE
    apply groupBoundsInv_updateGroupBounds _ gid _ hgC
    obtain ⟨i, hi, hv⟩ :
        ∃ i ∈ g.widget_ids.erase wid, (aGet st.widgets i).isSome = true := by
      by_contra hcon
      apply hne
      rw [List.filterMap_eq_nil_iff]
      intro i hi
      cases haGet : aGet st.widgets i with
      | none => rfl
      | some v =>
          exact absurd ⟨i, hi, by rw [haGet]; rfl⟩ hcon
    have hv2 : (aGet (clearWidgetGroupId (eraseGroupMember st wid gid) wid).widgets
        i).isSome = true := by
      rw [clearWidgetGroupId_widget_isSome]
      rw [show (eraseGroupMember st wid gid).widgets = st.widgets from
        eraseGroupMember_widgets st wid gid]
      exact hv
    have hmemi : i ∈ (if wid ∈ g.widget_ids then
        { g with widget_ids := g.widget_ids.erase wid } else g).widget_ids := by
      by_cases hmem : wid ∈ g.widget_ids
      · simpa [hmem] using hi
      · rw [List.erase_of_not_mem hmem] at hi
        simpa [hmem] using hi
    exact filterMap_aGet_ne_nil _ _ i hmemi hv2
  · -- resize_group
    intro st gid g w h hg
    simp only [resizeGroup, hg]
    rw [aGet_aSet_self]

/-- C7 witness: the amended theorem at concrete states. -/
theorem c7_witness :
    groupBoundsInv (moveGroup stGroup (str "g") 10 10) (str "g") = true ∧
    groupBoundsInv (addToGroup stGroupC (str "C") (str "g")) (str "g") = true ∧
    groupBoundsInv (removeFromGroup stGroup (str "A") (str "g")) (str "g") = true ∧
    aGet (resizeGroup stGroup (str "g") 25 25).groups (str "g") =
      some { groupG with width := 25, height := 25 } :=
  ⟨c7_theorem.1 stGroup (str "g") groupG 10 10 (by decide) (by decide),
   c7_theorem.2.1 stGroupC (str "C") (str "g") (by decide) (by decide),
   c7_theorem.2.2.1 stGroup (str "A") (str "g") groupG (by decide) (by decide)
     (by decide),
   c7_theorem.2.2.2 stGroup (str "g") groupG 25 25 (by decide)⟩

end PyGui

namespace PyGui

/-! ### Claim C9: move_group as a pure translation -/

/-- C9 counterexample: a reachable state whose group bounds are stale
(200×200 recorded, members' union 100×100, every member live); after
`move_group` by (10, 10) the recomputed width is 100, not the prior 200,
so the move is not a pure translation of the group rectangle. -/
theorem c9_counterexample :
    (aGet stStale.widgets (str "A")).isSome = true ∧
    (aGet stStale.widgets (str "B")).isSome = true ∧
    (aGet stStale.groups (str "g")).map (fun g => (g.width, g.height)) =
      some (200, 200) ∧
    (aGet (moveGroup stStale (str "g") 10 10).groups (str "g")).map
      (fun g => (g.width, g.height)) = some (100, 100) := by
  refine ⟨by decide, by decide, by decide, by decide⟩

/-- C9 (amended): when additionally the group's rectangle equals its
members' union before the call (the documented invariant state),
`move_group` translates every member by exactly `(dx, dy)` and shifts the
group rectangle by `(dx, dy)` with width and height unchanged. -/
theorem c9_theorem (st : CanvasState) (gid : Str) (g : WidgetGroup) (dx dy : Int)
    (hg : aGet st.groups gid = some g)
    (hlive : ∀ wid ∈ g.widget_ids, (aGet st.widgets wid).isSome = true)
    (hne : g.widget_ids ≠ [])
    (hnd : g.widget_ids.Nodup)
    (hinv : groupBoundsInv st gid = true) :
    aGet (moveGroup st gid dx dy).groups gid =
      some { g with x := g.x + dx, y := g.y + dy } ∧
    ∀ wid ∈ g.widget_ids,
      aGet (moveGroup st gid dx dy).widgets wid =
        (aGet st.widgets wid).map
          (fun w => { w with x := w.x + dx, y := w.y + dy }) := by
  have hexp : moveGroup st gid dx dy = updateGroupBounds
      { st with widgets := translateWidgets st.widgets g.widget_ids dx dy }
      gid := by
    simp [moveGroup, hg]
  obtain ⟨i0, hi0⟩ : ∃ i0, i0 ∈ g.widget_ids := by
    cases hl : g.widget_ids with
    | nil => exact absurd hl hne
    | cons a t => exact ⟨a, by simp [hl]⟩
  cases hm : memberRects st g with
  | nil =>
      exact absurd hm (filterMap_aGet_ne_nil _ _ i0 hi0 (hlive i0 hi0))
  | cons w ws =>
      have hinv' := hinv
      simp only [groupBoundsInv, hg, hm, Bool.and_eq_true,
        decide_eq_true_eq] at hinv'
      obtain ⟨⟨⟨e1, e2⟩, e3⟩, e4⟩ := hinv'
      have hpt : ∀ i ∈ g.widget_ids,
          aGet (translateWidgets st.widgets g.widget_ids dx dy) i =
            (aGet st.widgets i).map
              (fun w => { w with x := w.x + dx, y := w.y + dy }) := by
        intro i hi
        rw [translateWidgets_aGet dx dy g.widget_ids st.widgets i hnd]
        simp [hi]
      have hA : memberRects
          { st with widgets := translateWidgets st.widgets g.widget_ids dx dy } g
          = g.widget_ids.filterMap (fun i =>
              (aGet st.widgets i).map
                (fun w => { w with x := w.x + dx, y := w.y + dy })) :=
        List.filterMap_congr hpt
      have hB : g.widget_ids.filterMap (fun i =>
            (aGet st.widgets i).map
              (fun w => { w with x := w.x + dx, y := w.y + dy }))
          = (g.widget_ids.filterMap (fun i => aGet st.widgets i)).map
              (fun w => { w with x := w.x + dx, y := w.y + dy }) :=
        (List.map_filterMap _ _ _).symm
      have hC : (g.widget_ids.filterMap (fun i => aGet st.widgets i)).map
            (fun w => { w with x := w.x + dx, y := w.y + dy })
          = (w :: ws).map (fun v => { v with x := v.x + dx, y := v.y + dy }) := by
        rw [show g.widget_ids.filterMap (fun i => aGet st.widgets i) =
          memberRects st g from rfl, hm]
      have hmemT : memberRects
          { st with widgets := translateWidgets st.widgets g.widget_ids dx dy } g
          = (w :: ws).map (fun v => { v with x := v.x + dx, y := v.y + dy }) :=
        hA.trans (hB.trans hC)
      have hidsE : g.widget_ids.isEmpty = false := by
        cases hl : g.widget_ids with
        | nil => exact absurd hl hne
        | cons a t => rfl
      have hupd : updateGroupBounds
          { st with widgets := translateWidgets st.widgets g.widget_ids dx dy }
          gid =
          { st with
            widgets := translateWidgets st.widgets g.widget_ids dx dy,
            groups := aSet st.groups gid (unionGroup g
              ((w :: ws).map (fun v => { v with x := v.x + dx, y := v.y + dy }))) } := by
        simp [updateGroupBounds, hg, hidsE, hmemT]
      have hug : unionGroup g
          ((w :: ws).map (fun v => { v with x := v.x + dx, y := v.y + dy })) =
          { g with x := g.x + dx, y := g.y + dy } := by
        unfold unionGroup
        have hx : ((w :: ws).map (fun v => { v with x := v.x + dx, y := v.y + dy })).map
            (fun v => v.x) = ((w :: ws).map (fun v => v.x)).map (fun a => a + dx) := by
          simp only [List.map_map]
          rfl
        have hy : ((w :: ws).map (fun v => { v with x := v.x + dx, y := v.y + dy })).map
            (fun v => v.y) = ((w :: ws).map (fun v => v.y)).map (fun a => a + dy) := by
          simp only [List.map_map]
          rfl
        have hxw : ((w :: ws).map (fun v => { v with x := v.x + dx, y := v.y + dy })).map
            (fun v => v.x + v.width) =
            ((w :: ws).map (fun v => v.x + v.width)).map (fun a => a + dx) := by
          simp only [List.map_map]
          apply List.map_congr_left
          intro a _
          show a.x + dx + a.width = a.x + a.width + dx
          omega
        have hyh : ((w :: ws).map (fun v => { v with x := v.x + dx, y := v.y + dy })).map
            (fun v => v.y + v.height) =
            ((w :: ws).map (fun v => v.y + v.height)).map (fun a => a + dy) := by
          simp only [List.map_map]
          apply List.map_congr_left
          intro a _
          show a.y + dy + a.height = a.y + a.height + dy
          omega
        rw [hx, hy, hxw, hyh]
        rw [listMin_map_add _ dx (by simp), listMin_map_add _ dy (by simp),
          listMax_map_add _ dx (by simp), listMax_map_add _ dy (by simp)]
        cases g with
        | mk gi gn gw gx gy gwd ght gl gv glk =>
            simp only [WidgetGroup.mk.injEq] at e1 e2 e3 e4 ⊢
            and_intros <;> first | trivial | omega
      constructor
      · rw [hexp, hupd]
        show aGet (aSet st.groups gid _) gid = _
        rw [aGet_aSet_self, hug]
      · intro wid hwid
        rw [hexp, updateGroupBounds_widgets]
        show aGet (translateWidgets st.widgets g.widget_ids dx dy) wid = _
        exact hpt wid hwid

/-- C9 witness: the amended theorem at `stGroup`, whose bounds equal the
member union. -/
theorem c9_witness :
    aGet (moveGroup stGroup (str "g") 10 10).groups (str "g") =
      some { groupG with x := groupG.x + 10, y := groupG.y + 10 } ∧
    aGet (moveGroup stGroup (str "g") 10 10).widgets (str "A") =
      (aGet stGroup.widgets (str "A")).map
        (fun w => { w with x := w.x + 10, y := w.y + 10 }) :=
  ⟨(c9_theorem stGroup (str "g") groupG 10 10 (by decide) (by decide) (by decide)
      (by decide) (by decide)).1,
   (c9_theorem stGroup (str "g") groupG 10 10 (by decide) (by decide) (by decide)
      (by decide) (by decide)).2 (str "A") (by decide)⟩

end PyGui
